import Mathlib

/-!
Shallow embedding of the `isl_nlp_pipeline` repository (English ↔ Indian Sign
Language gloss translator) for specification checking.

Python string operations are modelled over `List Char` / `String` (ASCII
scope, which covers every literal in the program).  The external
collaborators — the file system for word lists, spaCy's `nlp` annotator and
lemminflect's `getInflection` — are modelled as explicit oracle parameters;
a Python exception is modelled by `Except PyErr`.
-/

namespace ISL

/-- ASCII whitespace, as recognised by Python `str.split()` / `str.strip()`. -/
def pySpace (c : Char) : Bool :=
  decide (c.toNat = 32 ∨ c.toNat = 9 ∨ c.toNat = 10 ∨ c.toNat = 13 ∨
    c.toNat = 11 ∨ c.toNat = 12)

/-- ASCII lower-case letter test. -/
def isLowerAZ (c : Char) : Bool := decide (97 ≤ c.toNat ∧ c.toNat ≤ 122)

/-- ASCII upper-case letter test. -/
def isUpperAZ (c : Char) : Bool := decide (65 ≤ c.toNat ∧ c.toNat ≤ 90)

/-- Python `str.lower()` on one character (ASCII scope). -/
def pyLowerChar (c : Char) : Char :=
  if isUpperAZ c then Char.ofNat (c.toNat + 32) else c

/-- Python `str.upper()` on one character (ASCII scope). -/
def pyUpperChar (c : Char) : Char :=
  if isLowerAZ c then Char.ofNat (c.toNat - 32) else c

/-- Python `str.lower()`. -/
def pyLower (s : String) : String := String.mk (s.data.map pyLowerChar)

/-- Python `str.upper()`. -/
def pyUpper (s : String) : String := String.mk (s.data.map pyUpperChar)

/-- Drop leading and trailing whitespace from a character list. -/
def stripChars (l : List Char) : List Char :=
  ((l.dropWhile pySpace).reverse.dropWhile pySpace).reverse

/-- Python `str.strip()`. -/
def pyStrip (s : String) : String := String.mk (stripChars s.data)

/-- Worker for Python `str.split()` (split on whitespace runs, drop empties);
`acc` holds the current word reversed. -/
def wsWordsAux : List Char → List Char → List (List Char)
  | acc, [] => if acc.isEmpty then [] else [acc.reverse]
  | acc, c :: cs =>
    if pySpace c then
      (if acc.isEmpty then wsWordsAux [] cs else acc.reverse :: wsWordsAux [] cs)
    else wsWordsAux (c :: acc) cs

/-- Python `str.split()` with no argument: split on whitespace, dropping
empty pieces. -/
def pySplitWS (s : String) : List String := (wsWordsAux [] s.data).map String.mk

/-- Worker for Python `str.split(sep)` with a one-character separator;
keeps empty pieces, like Python. -/
def sepSplitAux (sep : Char) : List Char → List Char → List (List Char)
  | acc, [] => [acc.reverse]
  | acc, c :: cs =>
    if c = sep then acc.reverse :: sepSplitAux sep [] cs
    else sepSplitAux sep (c :: acc) cs

/-- Python `str.split(sep)` for a one-character separator. -/
def pySplitOn (sep : Char) (s : String) : List String :=
  (sepSplitAux sep [] s.data).map String.mk

/-- Substring test on character lists. -/
def infixChars (pat : List Char) : List Char → Bool
  | [] => pat.isEmpty
  | c :: cs => pat.isPrefixOf (c :: cs) || infixChars pat cs

/-- Python `pat in s` (substring containment). -/
def pyIn (pat s : String) : Bool := infixChars pat.data s.data

/-- Python `s.startswith(pat)`. -/
def pyStartsWith (s pat : String) : Bool := pat.data.isPrefixOf s.data

/-- Python `s.endswith(pat)`. -/
def pyEndsWith (s pat : String) : Bool := pat.data.isSuffixOf s.data

/-- Python `str.capitalize()`: first character upper-cased, the rest
lower-cased. -/
def pyCapitalize (s : String) : String :=
  match s.data with
  | [] => ""
  | c :: cs => String.mk (pyUpperChar c :: cs.map pyLowerChar)

/-- Worker for Python `str.title()`; the flag records whether the previous
character was alphabetic. -/
def pyTitleAux : Bool → List Char → List Char
  | _, [] => []
  | prev, c :: cs =>
    (if c.isAlpha && !prev then pyUpperChar c
     else if c.isAlpha then pyLowerChar c else c) :: pyTitleAux c.isAlpha cs

/-- Python `str.title()` (ASCII scope). -/
def pyTitle (s : String) : String := String.mk (pyTitleAux false s.data)

/-- Python `str.isupper()` (ASCII scope): at least one letter and no
lower-case letter. -/
def pyIsUpper (s : String) : Bool :=
  s.data.any (fun c => c.isAlpha) && s.data.all (fun c => !isLowerAZ c)

/-- Join character lists with a separator (Python `sep.join`). -/
def pyJoin (sep : List Char) : List (List Char) → List Char
  | [] => []
  | [w] => w
  | w :: ws => w ++ sep ++ pyJoin sep ws

/-- Python `sep.join(words)`. -/
def pyJoinWith (sep : String) (ws : List String) : String :=
  String.mk (pyJoin sep.data (ws.map String.data))

/-- Number of `'.'` characters in a string (termination measure for the
multi-sentence recursion). -/
def dotCount (s : String) : Nat := s.data.count '.'

/-- Python dict built from a literal association list (a later duplicate key
overrides an earlier one), looked up with `get`/`in`. -/
def pyDictGet (tbl : List (String × String)) (k : String) : Option String :=
  (tbl.reverse.find? (fun kv => kv.1 == k)).map (fun kv => kv.2)

/-- Python `\w` word character (ASCII scope). -/
def isWordChar (c : Char) : Bool := c.isAlphanum || c = '_'

/-- Python `re.sub(r'[^\w\s]', '', s)`: delete every character that is
neither a word character nor whitespace. -/
def pyRemovePunct (s : String) : String :=
  String.mk (s.data.filter (fun c => isWordChar c || pySpace c))

/-- A Python exception, as observed at a call boundary. -/
inductive PyErr where
  | attributeError
  | indexError
  | keyError
  | fileNotFound
  | oracleFailure (msg : String)
deriving DecidableEq

deriving instance DecidableEq for Except

namespace GlossToText

/-- Modelled from the spec: the contents of the configured word-list file
`data/time_words.txt` (one lower-case time word per line), which is not part
of the sources; the spec names "yesterday", "tomorrow" and "future" as time
expressions. -/
def time_words : List String := ["yesterday", "today", "tomorrow", "now", "future"]

/-- Modelled from the spec: the contents of the configured word-list file
`data/wh_words.txt` (one lower-case wh-word per line), which is not part of
the sources. -/
def wh_words : List String := ["what", "where", "when", "why", "who", "how", "which"]

/-- `multi_word_expressions` from `gloss_to_english.py`. -/
def multi_word_expressions : List (String × String) :=
  [("SWITCH-ON", "turn on"),
   ("SWITCH-OFF", "turn off"),
   ("FAN ON", "turn on a fan"),
   ("CALL DOCTOR", "call a doctor"),
   ("TAKE ME DOCTOR", "take me to a doctor")]

/-- `adjectives` from `gloss_to_english.py`. -/
def adjectives : List String :=
  ["HAPPY", "THIRSTY", "BUSY", "COMFORTABLE", "HOT", "SAD", "DANGER", "RIGHT",
   "WRONG", "BIG", "SMALL", "HUNGRY", "TIRED", "SICK", "GOOD", "BAD", "TALL",
   "SHORT", "FAT", "THIN", "BEAUTIFUL", "UGLY", "OLD", "YOUNG"]

/-- `modal_verbs` from `gloss_to_english.py`. -/
def modal_verbs : List String := ["CAN"]

/-- `special_verbs` from `gloss_to_english.py`. -/
def special_verbs : List String := ["FEEL", "HAVE", "WANT", "NEED"]

/-- `be_verbs` from `gloss_to_english.py`. -/
def be_verbs : List String := ["AM", "IS", "ARE", "WAS", "WERE"]

/-- `auxiliary_verbs` from `gloss_to_english.py`. -/
def auxiliary_verbs : List String := ["DO", "DOES", "DID"]

/-- `place_nouns` from `gloss_to_english.py`. -/
def place_nouns : List String :=
  ["SCHOOL", "MARKET", "HOUSE", "HOSPITAL", "OFFICE", "SHOP", "STORE", "HOME",
   "PARK", "LIBRARY"]

/-- The hard-coded upper-case wh-word list that `detect_sentence_type` and
`extract_components` test alongside the file-loaded `wh_words`. -/
def hard_wh_list : List String := ["WHAT", "WHERE", "WHY", "WHEN", "WHO", "HOW"]

/-- `detect_sentence_type` from `gloss_to_english.py`, parametrised by the
file-loaded `wh_words` list `ww`. -/
def detect_sentence_type (ww : List String) (gloss : String) : String :=
  let tokens := pySplitWS gloss
  if tokens.any (fun w => ww.contains (pyLower w) || hard_wh_list.contains w) then
    "wh-question"
  else if pyEndsWith gloss "?" || (decide (2 ≤ tokens.length) && (tokens.getLastD "" == "CAN")) then
    "yes-no-question"
  else if tokens.contains "PLEASE" ||
      (!tokens.isEmpty && ["go", "come", "sit", "stand", "help"].contains (pyLower (tokens.headD ""))) then
    "imperative"
  else
    "declarative"

/-- The slot frame built by `extract_components` (the `components` dict). -/
structure Components where
  time_exp : Option String := none
  subject : Option String := none
  object : Option String := none
  verb : Option String := none
  adjective : Option String := none
  modal : Option String := none
  negation : Option String := none
  wh_word : Option String := none
  politeness : Option String := none
  possessive : Option String := none
  secondary_verb : Option String := none
  proper_name : Option String := none
  location : Option String := none
deriving DecidableEq

/-- The special-verb pass of `extract_components` (gloss_to_english.py lines
248-256): the `for verb in special_verbs` loop, which `break`s after the
first list-order match, filling `verb` if empty and `secondary_verb`
otherwise, and removing the first occurrence of the matched token. -/
def specialVerbStage (c : Components) (tokens : List String) :
    Components × List String :=
  match special_verbs.find? (fun v => tokens.contains v) with
  | none => (c, tokens)
  | some v =>
    if c.verb = none then ({c with verb := some v}, tokens.erase v)
    else ({c with secondary_verb := some v}, tokens.erase v)

/-- The token filter of the proper-name heuristic. -/
def properCond (t : String) : Bool :=
  pyIsUpper t && !(adjectives.contains t) && !(special_verbs.contains t) &&
    !(modal_verbs.contains t) && !(place_nouns.contains t)

/-- The proper-name scan (the `for token in tokens` loop): find the first
token that passes `properCond` and can be placed; `true` marks the subject
branch (`tokens.index(token) == 0` with no subject yet), `false` the object
branch. -/
def properScan (full : List String) (subj obj : Option String) :
    List String → Option (String × Bool)
  | [] => none
  | t :: rest =>
    if properCond t then
      if subj = none ∧ full.findIdx (fun x => x == t) = 0 then some (t, true)
      else if obj = none then some (t, false)
      else properScan full subj obj rest
    else properScan full subj obj rest

/-- Scan for the first adjacent token pair that is a key of
`multi_word_expressions` (the `for i in range(len(tokens) - 1)` loop). -/
def mweScan : Nat → List String → Option (Nat × String)
  | _, [] => none
  | _, [_] => none
  | i, a :: b :: rest =>
    let pair := a ++ " " ++ b
    if (pyDictGet multi_word_expressions pair).isSome then some (i, pair)
    else mweScan (i + 1) (b :: rest)

/-- State threaded through the extraction passes: the components filled so
far and the working token list. -/
abbrev ExtractSt := Components × List String

/-- Time-expression pass: a leading token in the time-word list. -/
def timeStage (tw : List String) : ExtractSt → ExtractSt
  | (c, []) => (c, [])
  | (c, t :: rest) =>
    if tw.contains (pyLower t) then ({c with time_exp := some t}, rest)
    else (c, t :: rest)

/-- Politeness pass: remove a `"PLEASE"` token anywhere. -/
def politeStage : ExtractSt → ExtractSt
  | (c, tokens) =>
    if tokens.contains "PLEASE" then
      ({c with politeness := some "PLEASE"}, tokens.erase "PLEASE")
    else (c, tokens)

/-- Wh-word pass (only for wh-questions): the first token in the wh lists. -/
def whStage (ww : List String) (sentence_type : String) : ExtractSt → ExtractSt
  | (c, tokens) =>
    if sentence_type = "wh-question" then
      match tokens.find? (fun t => ww.contains (pyLower t) || hard_wh_list.contains t) with
      | some t => ({c with wh_word := some t}, tokens.erase t)
      | none => (c, tokens)
    else (c, tokens)

/-- Negation pass: remove a `"NOT"` token anywhere. -/
def negStage : ExtractSt → ExtractSt
  | (c, tokens) =>
    if tokens.contains "NOT" then ({c with negation := some "NOT"}, tokens.erase "NOT")
    else (c, tokens)

/-- Location pass: no removal and no break, so the last matching place (in
`place_nouns` order) wins. -/
def locStage : ExtractSt → ExtractSt
  | (c, tokens) =>
    match (place_nouns.filter (fun p => tokens.contains p)).getLast? with
    | some p => ({c with location := some p}, tokens)
    | none => (c, tokens)

/-- Adjective pass: first list-order match, removed. -/
def adjStage : ExtractSt → ExtractSt
  | (c, tokens) =>
    match adjectives.find? (fun a => tokens.contains a) with
    | some a => ({c with adjective := some a}, tokens.erase a)
    | none => (c, tokens)

/-- Modal-verb pass. -/
def modalStage : ExtractSt → ExtractSt
  | (c, tokens) =>
    match modal_verbs.find? (fun m => tokens.contains m) with
    | some m => ({c with modal := some m}, tokens.erase m)
    | none => (c, tokens)

/-- Possessive-marker pass. -/
def possStage : ExtractSt → ExtractSt
  | (c, tokens) =>
    match (["MY", "YOUR", "HIS", "HER", "ITS", "OUR", "THEIR"] : List String).find?
        (fun m => tokens.contains m) with
    | some m => ({c with possessive := some m}, tokens.erase m)
    | none => (c, tokens)

/-- The `"WANT GO <location>"` pattern. -/
def wantGoStage : ExtractSt → ExtractSt
  | (c, tokens) =>
    if tokens.contains "WANT" ∧ tokens.contains "GO" ∧ c.location.isSome then
      ({c with verb := some "WANT", secondary_verb := some "GO"},
        (tokens.erase "GO").erase "WANT")
    else (c, tokens)

/-- The `"CALL DOCTOR"` / `"TAKE ME DOCTOR"` special cases. -/
def doctorStage : ExtractSt → ExtractSt
  | (c, tokens) =>
    if 2 ≤ tokens.length then
      if tokens.contains "CALL" ∧ tokens.contains "DOCTOR" then
        let ci := tokens.findIdx (fun x => x == "CALL")
        let di := tokens.findIdx (fun x => x == "DOCTOR")
        if max ci di - min ci di = 1 then
          ({c with verb := some "CALL DOCTOR"}, (tokens.erase "CALL").erase "DOCTOR")
        else (c, tokens)
      else if tokens.contains "TAKE" ∧ tokens.contains "DOCTOR" ∧ tokens.contains "ME" then
        ({c with verb := some "TAKE ME DOCTOR"},
          (((tokens.erase "ME").erase "TAKE").erase "DOCTOR"))
      else (c, tokens)
    else (c, tokens)

/-- Multi-word-expression pass: first adjacent key pair, slice removed. -/
def mweStage : ExtractSt → ExtractSt
  | (c, tokens) =>
    match mweScan 0 tokens with
    | some iv => ({c with verb := some iv.2}, tokens.take iv.1 ++ tokens.drop (iv.1 + 2))
    | none => (c, tokens)

/-- Proper-name pass, applying the result of `properScan`. -/
def properStage : ExtractSt → ExtractSt
  | (c, tokens) =>
    match properScan tokens c.subject c.object tokens with
    | some (t, true) => ({c with subject := some t, proper_name := some t}, tokens.erase t)
    | some (t, false) => ({c with object := some t, proper_name := some t}, tokens.erase t)
    | none => (c, tokens)

/-- Resolve a tagged location still among the tokens: it becomes the object
when no object is set, and is removed either way. -/
def locResolveStage : ExtractSt → ExtractSt
  | (c, tokens) =>
    match c.location with
    | some l =>
      if tokens.contains l then
        (if c.object = none then ({c with object := some l}, tokens.erase l)
         else (c, tokens.erase l))
      else (c, tokens)
    | none => (c, tokens)

/-- Imperative residue: first residual token is the verb (if unset), the
rest joins into the object. -/
def imperativeResidue : ExtractSt → Components
  | (c, []) => c
  | (c, t :: rest) =>
    let st : ExtractSt :=
      if c.verb = none then ({c with verb := some t}, rest) else (c, t :: rest)
    if st.2.isEmpty then st.1 else {st.1 with object := some (pyJoinWith " " st.2)}

/-- Specific verb patterns looked for in the non-imperative residue. -/
def residuePatternStage : ExtractSt → ExtractSt
  | (c, tokens) =>
    if tokens.contains "GO" ∧ tokens.contains "WANT" then
      ({c with verb := some "WANT", secondary_verb := some "GO"},
        (tokens.erase "GO").erase "WANT")
    else if tokens.contains "FEEL" then
      ({c with verb := some "FEEL"}, tokens.erase "FEEL")
    else if tokens.contains "HAVE" then
      ({c with verb := some "HAVE"}, tokens.erase "HAVE")
    else if tokens.contains "LIVE" then
      ({c with verb := some "LIVE"}, tokens.erase "LIVE")
    else (c, tokens)

/-- Positional split of the non-imperative residue (the
`len(tokens) >= 2` / `== 1` blocks). -/
def residuePositionStage : ExtractSt → ExtractSt
  | (c, tokens) =>
    if 2 ≤ tokens.length then
      let st : ExtractSt :=
        match tokens with
        | t :: rest => if c.subject = none then ({c with subject := some t}, rest) else (c, tokens)
        | [] => (c, tokens)
      match st.2 with
      | t :: rest =>
        if st.1.object = none ∧ st.1.adjective = none then
          ({st.1 with object := some t}, rest)
        else (st.1, t :: rest)
      | [] => (st.1, [])
    else if tokens.length = 1 then
      let t := tokens.headD ""
      let c :=
        if c.subject = none then {c with subject := some t}
        else if c.verb = none then {c with verb := some t}
        else if c.object = none then {c with object := some t}
        else c
      (c, ([] : List String))
    else (c, tokens)

/-- Leftover tokens: a verb if none is set, then everything else joins into
the object. -/
def residueLeftoverStage : ExtractSt → Components
  | (c, tokens) =>
    let st : ExtractSt :=
      match tokens with
      | t :: rest => if c.verb = none then ({c with verb := some t}, rest) else (c, tokens)
      | [] => (c, tokens)
    if !st.2.isEmpty ∧ st.1.object = none then
      {st.1 with object := some (pyJoinWith " " st.2)}
    else st.1

/-- The `"WHAT YOUR ... NAME"` wh-question special case (the `"WHERE YOU
LIVE"` branch is a `pass`).  The proper-name reconciliation block of lines
332-338 re-assigns the values already stored and is a semantic no-op, so it
is not represented. -/
def whSpecialStage (sentence_type gloss : String) (c : Components) : Components :=
  if sentence_type = "wh-question" ∧ c.wh_word.isSome then
    if c.wh_word = some "WHAT" ∧ c.possessive = some "YOUR" ∧ pyIn "NAME" gloss then
      {c with verb := some "IS", object := some "NAME"}
    else c
  else c

/-- Rejoin a finger-spelled (hyphenated) value and title-case it. -/
def fingerFix : Option String → Option String
  | some s =>
    if pyIn "-" s then some (pyTitle (String.mk (s.data.filter (fun ch => ch ≠ '-'))))
    else some s
  | none => none

/-- The body of `extract_components` after the question-marker removal
(gloss_to_english.py lines 158-357), over the working token list, the
(possibly sentence-split) gloss string and the sentence type. -/
def extractCore (tw ww : List String) (tokens : List String) (gloss : String)
    (sentence_type : String) : Components :=
  let st : ExtractSt := ({}, tokens)
  let st := timeStage tw st
  let st := politeStage st
  let st := whStage ww sentence_type st
  let st := negStage st
  let st := locStage st
  let st := adjStage st
  let st := modalStage st
  let st := possStage st
  let st := wantGoStage st
  let st := doctorStage st
  let st := mweStage st
  let st := specialVerbStage st.1 st.2
  let st := properStage st
  let st := locResolveStage st
  let c :=
    if sentence_type = "imperative" then imperativeResidue st
    else residueLeftoverStage (residuePositionStage (residuePatternStage st))
  let c := whSpecialStage sentence_type gloss c
  {c with subject := fingerFix c.subject, object := fingerFix c.object}

/-- `extract_components` from `gloss_to_english.py`, parametrised by the
file-loaded `time_words` and `wh_words` lists. -/
def extract_components (tw ww : List String) (gloss : String)
    (sentence_type : String) : Components :=
  let tokens := pySplitWS gloss
  -- split into sentences if multiple
  let gt : String × List String :=
    if pyIn "." gloss then
      let g0 := (pySplitOn '.' gloss).headD ""
      (g0, pySplitWS g0)
    else (gloss, tokens)
  let gloss := gt.1
  let tokens := gt.2
  -- remove question marker: drop the whole final token
  let tokens :=
    if (sentence_type = "yes-no-question" ∨ sentence_type = "wh-question") ∧
        pyEndsWith gloss "?" then
      tokens.dropLast
    else tokens
  extractCore tw ww tokens gloss sentence_type

/-- An annotated token as used by `refine_with_spacy` (text, coarse
part-of-speech, dependency label; the token index is its list position). -/
structure RTok where
  text : String
  pos : String
  dep : String
deriving DecidableEq

/-- The external collaborators of the gloss→English direction: spaCy's
`nlp` and lemminflect's `getInflection`, each allowed to fail. -/
structure Oracles where
  nlp : String → Except PyErr (List RTok)
  inflect : String → String → Except PyErr (List String)

/-- `simple_conjugate` from `gloss_to_english.py` (fallback conjugation);
`number` defaults to `None` in the source, hence the `Option`. -/
def simple_conjugate (verb tense : String) (number : Option String) : String :=
  let verb := pyLower verb
  if tense = "past" then
    if pyEndsWith verb "e" then verb ++ "d"
    else if verb ∈ ["go"] then "went"
    else if verb ∈ ["eat"] then "ate"
    else verb ++ "ed"
  else if tense = "future" then "will " ++ verb
  else
    if number = some "singular" ∧ verb ∉ ["go", "eat"] then
      (if pyEndsWith verb "s" then verb else verb ++ "s")
    else verb

/-- `conjugate_verb` from `gloss_to_english.py`: lemminflect lookup with the
internal `try`/`except` falling back to `simple_conjugate`. -/
def conjugate_verb (o : Oracles) (verb tense number : String) : String :=
  if tense = "past" then
    match o.inflect verb "VBD" with
    | .ok infl => if infl.isEmpty then verb else infl.headD verb
    | .error _ => simple_conjugate verb tense (some number)
  else if tense = "future" then "will " ++ verb
  else
    match o.inflect verb (if number = "singular" then "VBZ" else "VBP") with
    | .ok infl => if infl.isEmpty then verb else infl.headD verb
    | .error _ => simple_conjugate verb tense (some number)

/-- The recurring `if components["proper_name"] and components["subject"] ==
components["proper_name"]` append of `transform_to_english`. -/
def subjTok (c : Components) (subject : String) : String :=
  if c.proper_name.isSome ∧ c.subject = c.proper_name then
    pyTitle (c.proper_name.getD "")
  else subject

/-- The recurring `if components["object"]:` append (proper name titled,
otherwise lower-cased object). -/
def objAppend (c : Components) : List String :=
  match c.object with
  | some ob =>
    if c.proper_name.isSome ∧ c.object = c.proper_name then
      [pyTitle (c.proper_name.getD "")]
    else [pyLower ob]
  | none => []

/-- The imperative branch of `transform_to_english`; raises
`AttributeError` (as the source does via `None.lower()`) when no verb was
extracted. -/
def imperativeToks (c : Components) : Except PyErr (List String) :=
  let pol := if c.politeness.isSome then ["Please"] else []
  match c.verb with
  | none => .error PyErr.attributeError
  | some v =>
    let verb := (pyDictGet multi_word_expressions v).getD (pyLower v)
    .ok (pol ++ [verb] ++ objAppend c)

/-- The yes-no-question branch of `transform_to_english`. -/
def ynqToks (c : Components) (subject : String) : List String :=
  if c.modal = some "CAN" then
    ["Can", subjTok c subject] ++
      (if c.verb = some "CALL DOCTOR" then ["call a doctor"]
       else if c.verb = some "TAKE ME DOCTOR" then ["take me to a doctor"]
       else match c.verb with | some v => [pyLower v] | none => []) ++
      (if c.object.isSome ∧ c.verb ≠ some "CALL DOCTOR" ∧ c.verb ≠ some "TAKE ME DOCTOR" then
        objAppend c
      else [])
  else
    let verb := match c.verb with | some v => pyLower v | none => ""
    if c.adjective.isSome then
      [(if subject ∈ ["you", "we", "they"] then "Are" else "Is"), subjTok c subject,
        pyLower (c.adjective.getD "")]
    else
      [(if subject ∈ ["you", "we", "they", "i"] then "Do" else "Does"), subjTok c subject,
        verb] ++ objAppend c

/-- The wh-question branch of `transform_to_english`; the possessive
sub-branch dereferences `components["wh_word"]` without a guard, so a
missing wh-word raises there. -/
def whqToks (c : Components) (subject : String) : Except PyErr (List String) :=
  let wh := pyCapitalize (match c.wh_word with | some w => pyLower w | none => "what")
  if c.modal = some "CAN" then
    .ok ([wh, "can", subjTok c subject] ++
      (match c.verb with | some v => [pyLower v] | none => []) ++ objAppend c)
  else if c.possessive.isSome then
    if c.adjective.isSome then
      .ok [wh, "is", "your", (match c.object with | some ob => pyLower ob | none => "")]
    else
      match c.wh_word with
      | none => .error PyErr.attributeError
      | some w =>
        let isWhat := pyLower w = "what"
        let base := [wh, (if isWhat then "is" else "do"), (if isWhat then "your" else "you")]
        if c.object.isSome ∧ isWhat then .ok (base ++ [pyLower (c.object.getD "")])
        else if c.verb.isSome ∧ ¬isWhat then
          .ok (base ++ [pyLower (c.verb.getD "")] ++ objAppend c)
        else .ok base
  else if c.adjective.isSome then
    .ok [wh, "do", subjTok c subject, "feel", pyLower (c.adjective.getD "")]
  else
    .ok ([wh, (if subject ∈ ["you", "we", "they", "i"] then "do" else "does"),
      subjTok c subject] ++
      (match c.verb with | some v => [pyLower v] | none => []) ++ objAppend c)

/-- The adjective chain of the declarative branch.  Adjectives outside the
handled cases (e.g. `HUNGRY`) append nothing after the subject. -/
def adjDecl (c : Components) (subject : String) (is_singular : Bool) : List String :=
  let base := [subjTok c subject]
  let be := if subject = "i" then "am" else if is_singular then "is" else "are"
  let beneg := if subject = "i" then "am not" else if is_singular then "is not" else "are not"
  match c.adjective with
  | some "THIRSTY" => base ++ [be, "thirsty"]
  | some "HAPPY" => base ++ [(if c.negation.isSome then beneg else be), "happy"]
  | some "BUSY" => base ++ [be, "busy"]
  | some "COMFORTABLE" => base ++ [(if c.negation.isSome then beneg else be), "comfortable"]
  | some "HOT" => base ++ [be, "hot"]
  | some "SAD" => base ++ [be, "sad"]
  | some "DANGER" => base ++ [be, "in danger"]
  | some "BIG" => base ++ [(if subject ∈ ["they", "we"] then "are" else "is"), "big"]
  | some "SMALL" => base ++ [(if subject ∈ ["they", "we"] then "are" else "is"), "small"]
  | some "RIGHT" => base ++ ["is", (if c.negation.isSome then "not" else ""), "right"]
  | some "WRONG" => base ++ ["is", (if c.negation.isSome then "not" else ""), "wrong"]
  | _ => base

/-- The declarative branch of `transform_to_english`; the boolean marks the
proper-name early return, which skips the final possessive fix. -/
def declToks (o : Oracles) (c : Components) (subject : String) (is_singular : Bool)
    (tense : String) : List String × Bool :=
  if c.proper_name.isSome ∧ c.subject = c.proper_name ∧ c.verb = none then
    ([pyTitle (c.proper_name.getD ""), "is"] ++
      (match c.object with | some ob => [pyLower ob] | none => []), true)
  else if c.verb = some "WANT" ∧ c.secondary_verb.isSome then
    ([subjTok c subject, "want", "to", pyLower (c.secondary_verb.getD "")] ++ objAppend c,
      false)
  else if c.adjective.isSome then
    (adjDecl c subject is_singular, false)
  else if c.verb = some "FEEL" then
    ([subjTok c subject] ++ (if c.negation.isSome then ["do not"] else []) ++ ["feel"] ++
      (match c.object with
       | some ob =>
         let obl := pyLower ob
         (if obl ∉ ["well", "good", "bad", "sick"] then ["a"] else []) ++ [obl]
       | none => []), false)
  else if c.verb = some "HAVE" then
    ([subjTok c subject] ++ (if c.negation.isSome then ["do not"] else []) ++ ["have"] ++
      (match c.object with
       | some ob =>
         let obl := pyLower ob
         (if obl ∉ ["hair", "money"] then ["a"] else []) ++ [obl]
       | none => []), false)
  else if c.verb = some "WANT" ∧ c.object.isSome then
    ([subjTok c subject, "want"] ++
      (if c.object.getD "" ∈ ["EAT", "SLEEP", "SIT", "STAND", "REST"] then
        ["to", pyLower (c.object.getD "")]
      else if c.proper_name.isSome ∧ c.object = c.proper_name then
        [pyTitle (c.proper_name.getD "")]
      else
        (if c.object ≠ some "WATER" then ["a"] else []) ++ [pyLower (c.object.getD "")]),
      false)
  else
    ([subjTok c subject] ++
      (if c.negation.isSome then
        [(if subject ∈ ["i", "you", "we", "they"] then "do not" else "does not")]
      else if c.modal.isSome then [pyLower (c.modal.getD "")] else []) ++
      (match c.verb with
       | some v =>
         let verb := (pyDictGet multi_word_expressions v).getD (pyLower v)
         let verb :=
           if c.negation = none ∧ c.modal = none then
             conjugate_verb o (if pyIn " " verb then (pySplitWS verb).headD "" else verb)
               tense (if is_singular then "singular" else "plural")
           else verb
         [verb]
       | none => []) ++ objAppend c, false)

/-- The final possessive fix of `transform_to_english` (lines 664-670). -/
def possessiveFix (c : Components) (toks : List String) : List String :=
  match c.possessive, toks with
  | some p, t0 :: rest =>
    let pl := pyLower p
    if pl = "my" ∧ t0 ∉ ["my", "your", "his", "her", "its", "our", "their"] then
      ("my " ++ t0) :: rest
    else if pl = "your" ∧ t0 ∉ ["my", "your", "his", "her", "its", "our", "their"] then
      ("your " ++ t0) :: rest
    else t0 :: rest
  | _, _ => toks

/-- `transform_to_english` from `gloss_to_english.py`. -/
def transform_to_english (o : Oracles) (c : Components) (sentence_type : String) :
    Except PyErr (List String) :=
  let tense :=
    match c.time_exp with
    | some t =>
      let tl := pyLower t
      if tl = "yesterday" then "past"
      else if tl = "tomorrow" ∨ tl = "future" then "future"
      else "present"
    | none => "present"
  let timeToks : List String :=
    match c.time_exp with
    | some t => [pyCapitalize (pyLower t) ++ ","]
    | none => []
  let subject := match c.subject with | some s => pyLower s | none => "I"
  let subject :=
    if c.proper_name.isSome ∧ c.subject = c.proper_name then
      pyTitle (c.proper_name.getD "")
    else subject
  let is_singular :=
    (["i", "he", "she", "it"] : List String).contains subject ||
      !(["we", "they", "you all"] : List String).contains subject
  if sentence_type = "imperative" then
    match imperativeToks c with
    | .ok toks => .ok (possessiveFix c (timeToks ++ toks))
    | .error e => .error e
  else if sentence_type = "yes-no-question" then
    .ok (possessiveFix c (timeToks ++ ynqToks c subject))
  else if sentence_type = "wh-question" then
    match whqToks c subject with
    | .ok toks => .ok (possessiveFix c (timeToks ++ toks))
    | .error e => .error e
  else
    let td := declToks o c subject is_singular tense
    if td.2 then .ok (timeToks ++ td.1)
    else .ok (possessiveFix c (timeToks ++ td.1))

/-- The exact-translation `mapping` dict of `refine_with_spacy`.  The key
`"do you ?"` appears twice in the source literal; Python keeps the later
value, which `pyDictGet` models by preferring later entries. -/
def refineMapping : List (String × String) :=
  [("a boy eats an apple .", "Boy eats an apple."),
   ("do you ?", "Do you come?"),
   ("does he eat ?", "What does he eat?"),
   ("yesterday , i went school .", "Yesterday, I went to school."),
   ("she is happy .", "She is not happy."),
   ("sit .", "Sit."),
   ("i am thirsty .", "I am thirsty."),
   ("do you ?", "Are you busy?"),
   ("i wants an eat .", "I want to eat."),
   ("i wants a sleep .", "I want to sleep."),
   ("your does name ?", "What is your name?"),
   ("i do not go .", "I do not go."),
   ("i am faraan", "I am Faraan."),
   ("i wants a toilet .", "I want to go to the toilet."),
   ("i wants a water .", "I want water."),
   ("i do not feel well .", "I do not feel well."),
   ("i have a fever .", "I have a fever."),
   ("i have a pain .", "I have a pain."),
   ("please help me .", "Please help me."),
   ("do you a doctor call ?", "Can you call a doctor?"),
   ("do you me take ?", "Can you take me to a doctor?"),
   ("my please parents inform .", "Please inform my parents."),
   ("i wants a sit .", "I want to sit."),
   ("i wants stand .", "I want to stand."),
   ("i am in a danger .", "I am in danger."),
   ("emergency .", "Emergency."),
   ("this is not right", "This is not right."),
   ("this is not wrong", "This is not wrong."),
   ("i wants a rest .", "I want to rest."),
   ("i needs a bath .", "I need a bath."),
   ("stranger is comfortable .", "I am not comfortable."),
   ("your does name age what ? ?", "What is your name? What is your age? Where do you come from?"),
   ("do i have a problem ?", "I have a problem. Can you help me?"),
   ("is i hot ?", "I feel hot. Can you turn on a fan?"),
   ("are you sad ?", "Why do you feel sad?"),
   ("shoes are big", "Shoes are big."),
   ("shoes are small", "Shoes are small."),
   ("clothes are big", "Clothes are big."),
   ("I not well", "I am not well."),
   ("I not hungry", "I am not hungry."),
   ("I not tired", "I am not tired."),
   ("I not sick", "I am not sick."),
   ("I not good", "I am not good."),
   ("I not bad", "I am not bad.")]

/-- The article-insertion loop of `refine_with_spacy`; the slice `doc[:i]`
with `t.i < token.i` is modelled with `List.take i` (the index conjunct is
implied by the slice).  An empty token text would make `token.text[0]`
raise, modelled as `indexError`. -/
def refineLoop (doc : List RTok) : Nat → List RTok → Except PyErr (List String)
  | _, [] => .ok []
  | i, t :: rest =>
    if (pyLower t.text) ∈ ["emergency"] then
      match refineLoop doc (i + 1) rest with
      | .ok tail => .ok (t.text :: tail)
      | .error e => .error e
    else
      let art : Except PyErr (List String) :=
        if t.pos = "NOUN" ∧ t.dep ≠ "compound" ∧ pyLower t.text ∉ ["school"] then
          if ¬ (doc.take i).any (fun u =>
              (["a", "an", "the", "my", "your", "his", "her", "its", "our", "their"] :
                List String).contains u.text) then
            if pyLower t.text ∉ ["school", "home", "today", "yesterday", "tomorrow", "water"] then
              match t.text.data with
              | [] => .error PyErr.indexError
              | ch :: _ =>
                .ok (if pyLowerChar ch ∈ ['a', 'e', 'i', 'o', 'u'] then ["an"] else ["a"])
            else .ok []
          else .ok []
        else .ok []
      match art with
      | .error e => .error e
      | .ok pre =>
        match refineLoop doc (i + 1) rest with
        | .ok tail => .ok (pre ++ t.text :: tail)
        | .error e => .error e

/-- The post-processing `replace` chain of `refine_with_spacy`. -/
def postReplaces (s : String) : String :=
  (((((((s.replace "want eat" "want to eat").replace
    "want sleep" "want to sleep").replace
    "want sit" "want to sit").replace
    "want stand" "want to stand").replace
    "want rest" "want to rest").replace
    "went a school" "went to school").replace
    "went to a school" "went to school")

/-- `refine_with_spacy` from `gloss_to_english.py`. -/
def refine_with_spacy (o : Oracles) (s : String) : Except PyErr String :=
  match pyDictGet refineMapping (pyLower s) with
  | some v => .ok v
  | none =>
    match o.nlp s with
    | .error e => .error e
    | .ok doc =>
      match refineLoop doc 0 doc with
      | .error e => .error e
      | .ok refined => .ok (postReplaces (pyJoinWith " " refined))

/-- The backup logic of the outer `except` handler (lines 960-991).  The
handler's own bare `except` branch is unreachable because this body is
total, and the `print` is I/O only. -/
def glossBackup (gloss : String) : String :=
  let parts := pySplitWS gloss
  if parts.length = 1 then
    let p := parts.headD ""
    if (pyLower p) ∈ ["sit", "stand", "go", "come", "help"] then pyCapitalize p ++ "."
    else "It is " ++ pyLower p ++ "."
  else if parts.length = 2 then
    let subject := parts.headD ""
    let predicate := (parts.drop 1).headD ""
    if (pyUpper predicate) ∈ adjectives then
      let beV :=
        if pyLower subject = "i" then "am"
        else if (pyLower subject) ∈ ["he", "she", "it"] then "is"
        else "are"
      pyCapitalize subject ++ " " ++ beV ++ " " ++ pyLower predicate ++ "."
    else
      let verb := pyLower predicate
      if pyLower subject = "i" then "I " ++ verb ++ "."
      else if (pyLower subject) ∈ ["he", "she", "it"] then
        pyCapitalize subject ++ " " ++ simple_conjugate verb "present" (some "singular") ++ "."
      else pyCapitalize subject ++ " " ++ verb ++ "."
  else "Unable to translate: " ++ gloss

/-- Match a literal at the head of a character list, returning the rest. -/
def matchLit (pat : String) (l : List Char) : Option (List Char) :=
  if pat.data.isPrefixOf l then some (l.drop pat.data.length) else none

/-- Match `\s+` (at least one whitespace character, greedily). -/
def matchWS1 (l : List Char) : Option (List Char) :=
  match l with
  | c :: cs => if pySpace c then some ((c :: cs).dropWhile pySpace) else none
  | [] => none

/-- Split a maximal `[A-Z]+` run off the head. -/
def upperRun (l : List Char) : List Char × List Char := l.span isUpperAZ

/-- Match `[A-Z]+` requiring at least one character. -/
def matchRun (l : List Char) : Option (String × List Char) :=
  let pr := upperRun l
  if pr.1.isEmpty then none else some (String.mk pr.1, pr.2)

/-- `re.match(r"^I\s+([A-Z]+)$", g)`: the name pattern. -/
def matchNamePat (g : String) : Option String :=
  match matchLit "I" g.data with
  | none => none
  | some r1 =>
    match matchWS1 r1 with
    | none => none
    | some r2 =>
      match matchRun r2 with
      | some (run, rest) => if rest.isEmpty then some run else none
      | none => none

/-- Shared tail of the yesterday/tomorrow patterns:
`\s+I\s+([A-Z]+)(\s+.*)?$` after the leading time literal.  The second
capture keeps its leading whitespace in Python and is `.strip()`ed by the
caller, which the returned second component already applies. -/
def matchTimeTail (l : List Char) : Option (String × String) :=
  match matchWS1 l with
  | none => none
  | some r1 =>
    match matchLit "I" r1 with
    | none => none
    | some r2 =>
      match matchWS1 r2 with
      | none => none
      | some r3 =>
        match matchRun r3 with
        | none => none
        | some (run, rest) =>
          match rest with
          | [] => some (run, "")
          | c :: _ => if pySpace c then some (run, pyStrip (String.mk rest)) else none

/-- `re.match(r"^YESTERDAY\s+I\s+([A-Z]+)(\s+.*)?$", g)`. -/
def matchYesterdayPat (g : String) : Option (String × String) :=
  match matchLit "YESTERDAY" g.data with
  | some r => matchTimeTail r
  | none => none

/-- `re.match(r"^TOMORROW\s+I\s+([A-Z]+)(\s+.*)?$", g)`. -/
def matchTomorrowPat (g : String) : Option (String × String) :=
  match matchLit "TOMORROW" g.data with
  | some r => matchTimeTail r
  | none => none

/-- `re.match(r"^I\s+WANT\s+GO\s+([A-Z]+)$", g)`. -/
def matchGoPlacePat (g : String) : Option String :=
  match matchLit "I" g.data with
  | none => none
  | some r1 =>
    match matchWS1 r1 with
    | none => none
    | some r2 =>
      match matchLit "WANT" r2 with
      | none => none
      | some r3 =>
        match matchWS1 r3 with
        | none => none
        | some r4 =>
          match matchLit "GO" r4 with
          | none => none
          | some r5 =>
            match matchWS1 r5 with
            | none => none
            | some r6 =>
              match matchRun r6 with
              | some (run, rest) => if rest.isEmpty then some run else none
              | none => none

/-- `re.match(r"^([A-Z]+)\s+([A-Z]+)$", g)`. -/
def matchPersonAdjPat (g : String) : Option (String × String) :=
  match matchRun g.data with
  | none => none
  | some (p1, r1) =>
    match matchWS1 r1 with
    | none => none
    | some r2 =>
      match matchRun r2 with
      | some (p2, rest) => if rest.isEmpty then some (p1, p2) else none
      | none => none

/-- Match `^LIT1\s+LIT2\s+([A-Z]+)$`, shared by the what-your and
where-you patterns. -/
def matchTwoLitRun (lit1 lit2 : String) (g : String) : Option String :=
  match matchLit lit1 g.data with
  | none => none
  | some r1 =>
    match matchWS1 r1 with
    | none => none
    | some r2 =>
      match matchLit lit2 r2 with
      | none => none
      | some r3 =>
        match matchWS1 r3 with
        | none => none
        | some r4 =>
          match matchRun r4 with
          | some (run, rest) => if rest.isEmpty then some run else none
          | none => none

/-- Match `^LIT1\s+([A-Z]+)\s+LIT2$`, shared by the your-where and
stranger patterns. -/
def matchLitRunLit (lit1 lit2 : String) (g : String) : Option String :=
  match matchLit lit1 g.data with
  | none => none
  | some r1 =>
    match matchWS1 r1 with
    | none => none
    | some r2 =>
      match matchRun r2 with
      | none => none
      | some (run, r3) =>
        match matchWS1 r3 with
        | none => none
        | some r4 =>
          match matchLit lit2 r4 with
          | some rest => if rest.isEmpty then some run else none
          | none => none

/-- The `direct_mappings` dict of `gloss_to_english` (lines 781-836). -/
def gloss_direct_mappings : List (String × String) :=
  [("BOY APPLE EAT", "Boy eats an apple."),
   ("YOU COME", "Do you come?"),
   ("HE EAT WHAT", "What does he eat?"),
   ("YESTERDAY I SCHOOL GO", "Yesterday, I went to school."),
   ("SHE HAPPY NOT", "She is not happy."),
   ("SIT", "Sit."),
   ("I THIRSTY", "I am thirsty."),
   ("YOU BUSY", "Are you busy?"),
   ("I WANT EAT", "I want to eat."),
   ("I WANT SLEEP", "I want to sleep."),
   ("YOUR NAME WHAT", "What is your name?"),
   ("I GO NOT", "I do not go."),
   ("I FARAAN", "I am Faraan."),
   ("I TOILET GO WANT", "I want to go to the toilet."),
   ("I WATER WANT", "I want water."),
   ("I WELL FEEL NOT", "I do not feel well."),
   ("I FEVER HAVE", "I have a fever."),
   ("I PAIN HAVE", "I have a pain."),
   ("HELP ME PLEASE", "Please help me."),
   ("YOU CALL DOCTOR CAN", "Can you call a doctor?"),
   ("YOU TAKE ME DOCTOR CAN", "Can you take me to a doctor?"),
   ("MY PARENTS INFORM PLEASE", "Please inform my parents."),
   ("I WANT SIT", "I want to sit."),
   ("I WANT STAND", "I want to stand."),
   ("I DANGER", "I am in danger."),
   ("EMERGENCY", "Emergency."),
   ("THIS RIGHT NOT", "This is not right."),
   ("THIS WRONG NOT", "This is not wrong."),
   ("I WANT REST", "I want to rest."),
   ("I NEED BATH", "I need a bath."),
   ("STRANGER HOUSE IN, I COMFORTABLE NOT", "I am not comfortable."),
   ("YOUR NAME WHAT? AGE WHAT? COME FROM WHERE?", "What is your name? What is your age? Where do you come from?"),
   ("I PROBLEM HAVE. YOU HELP ME CAN?", "I have a problem. Can you help me?"),
   ("I HOT FEEL. YOU FAN ON CAN?", "I feel hot. Can you turn on a fan?"),
   ("YOU SAD FEEL WHY", "Why do you feel sad?"),
   ("SHOES BIG", "Shoes are big."),
   ("SHOES SMALL", "Shoes are small."),
   ("CLOTHES BIG", "Clothes are big."),
   ("I HUNGRY", "I am hungry."),
   ("YOU HAPPY", "You are happy."),
   ("WHERE YOU LIVE", "Where do you live?"),
   ("WHAT YOUR NAME", "What is your name?"),
   ("YOUR BOOK WHERE", "Where is your book?"),
   ("I WANT GO MARKET", "I want to go to the market."),
   ("TOMORROW I SCHOOL GO", "Tomorrow, I will go to school."),
   ("STRANGER HOUSE IN", "There is a stranger in the house."),
   ("I NOT WELL", "I am not well."),
   ("I NOT HUNGRY", "I am not hungry."),
   ("I NOT TIRED", "I am not tired."),
   ("I NOT SICK", "I am not sick."),
   ("I NOT GOOD", "I am not good."),
   ("I NOT BAD", "I am not bad."),
   ("YOU THIRSTY", "You are thirsty.")]

/-- Result of the yesterday pattern branch (lines 856-868). -/
def yesterdayResult (v rest : String) : String :=
  let verb := pyLower v
  if verb = "go" then
    "Yesterday, I went" ++ (if rest ≠ "" then " to " ++ pyLower rest else "") ++ "."
  else
    "Yesterday, I " ++ simple_conjugate verb "past" none ++
      (if rest ≠ "" then " " ++ pyLower rest else "") ++ "."

/-- Result of the tomorrow pattern branch (lines 870-881). -/
def tomorrowResult (v rest : String) : String :=
  let verb := pyLower v
  if verb = "go" ∧ pyIn "SCHOOL" rest then "Tomorrow, I will go to school."
  else "Tomorrow, I will " ++ verb ++ (if rest ≠ "" then " " ++ pyLower rest else "") ++ "."

/-- The pattern-based branches of `gloss_to_english` (lines 846-925), tried
in source order; `none` means fall through to the general parsing path. -/
def glossPatterns (g : String) : Option String :=
  (match matchNamePat g with
   | some name =>
     if name ∈ ((["THIRSTY", "BUSY", "HAPPY", "DANGER"] : List String) ++
         special_verbs ++ modal_verbs ++ adjectives) then none
     else some ("I am " ++ pyTitle name ++ ".")
   | none => none) <|>
  ((matchYesterdayPat g).map (fun vr => yesterdayResult vr.1 vr.2)) <|>
  ((matchTomorrowPat g).map (fun vr => tomorrowResult vr.1 vr.2)) <|>
  ((matchGoPlacePat g).map (fun place => "I want to go to the " ++ pyLower place ++ ".")) <|>
  (match matchPersonAdjPat g with
   | some (person, adj) =>
     if adj ∈ adjectives then some (pyTitle person ++ " is " ++ pyLower adj ++ ".")
     else none
   | none => none) <|>
  ((matchTwoLitRun "WHAT" "YOUR" g).map (fun noun => "What is your " ++ pyLower noun ++ "?")) <|>
  ((matchTwoLitRun "WHERE" "YOU" g).map (fun verb => "Where do you " ++ pyLower verb ++ "?")) <|>
  ((matchLitRunLit "YOUR" "WHERE" g).map (fun noun => "Where is your " ++ pyLower noun ++ "?")) <|>
  ((matchLitRunLit "STRANGER" "IN" g).map
    (fun place => "There is a stranger in the " ++ pyLower place ++ "."))

/-- The general parsing path of `gloss_to_english` (lines 927-955):
classify, extract, transform, punctuate, refine, and final cleaning. -/
def glossGeneral (o : Oracles) (g : String) : Except PyErr String :=
  let ty := detect_sentence_type wh_words g
  let comps := extract_components time_words wh_words g ty
  match transform_to_english o comps ty with
  | .error e => .error e
  | .ok toks =>
    let raw :=
      if toks.length = 1 ∧ pyIn " " (toks.headD "") then toks.headD ""
      else pyJoinWith " " toks
    let raw := raw ++ (if ty = "yes-no-question" ∨ ty = "wh-question" then "?" else ".")
    match refine_with_spacy o raw with
    | .error e => .error e
    | .ok refined =>
      let refined := pyCapitalize refined
      let refined :=
        if pyEndsWith refined " ." then String.mk (refined.data.dropLast.dropLast ++ ['.'])
        else refined
      let refined :=
        if pyIn "i am" (pyLower refined) then refined.replace "i am" "I am" else refined
      .ok refined

/-- Everything the `try` body of `gloss_to_english` does after the direct
mapping and the multi-sentence branch. -/
def glossAfterMulti (o : Oracles) (g : String) : Except PyErr String :=
  match glossPatterns g with
  | some s => .ok s
  | none => glossGeneral o g

/-- A positive single-character substring test forces the character to
occur in the list. -/
def mem_of_infixChars_singleton (a : Char) :
    ∀ l : List Char, infixChars [a] l = true → a ∈ l := by
  intro l hl
  induction l with
  | nil => simp [infixChars] at hl
  | cons c cs ih =>
    simp only [infixChars, Bool.or_eq_true] at hl
    rcases hl with hpre | hrec
    · simp only [List.isPrefixOf, Bool.and_eq_true, beq_iff_eq] at hpre
      exact hpre.1 ▸ List.mem_cons_self c cs
    · exact List.mem_cons_of_mem _ (ih hrec)

/-- A positive `pyIn "." s` forces a positive dot count. -/
def dot_pos_of_pyIn (s : String) (h : pyIn "." s = true) : 0 < dotCount s :=
  List.count_pos_iff.mpr (mem_of_infixChars_singleton '.' s.data h)

/-- Pieces produced by `sepSplitAux` never contain the separator. -/
def sepSplitAux_count (l : List Char) :
    ∀ acc, acc.count '.' = 0 → ∀ p ∈ sepSplitAux '.' acc l, p.count '.' = 0 := by
  induction l with
  | nil =>
    intro acc hacc p hp
    simp only [sepSplitAux, List.mem_singleton] at hp
    simpa [hp, List.count_reverse] using hacc
  | cons c cs ih =>
    intro acc hacc p hp
    simp only [sepSplitAux] at hp
    by_cases hc : c = '.'
    · rw [if_pos hc] at hp
      rcases List.mem_cons.mp hp with h1 | h2
      · simpa [h1, List.count_reverse] using hacc
      · exact ih [] rfl p h2
    · rw [if_neg hc] at hp
      refine ih (c :: acc) ?_ p hp
      simpa [List.count_cons, hacc] using fun hcc => absurd hcc hc

/-- Pieces of `pySplitOn '.'` contain no dots. -/
def pySplitOn_dotCount (s : String) : ∀ p ∈ pySplitOn '.' s, dotCount p = 0 := by
  intro p hp
  simp only [pySplitOn, List.mem_map] at hp
  obtain ⟨q, hq, rfl⟩ := hp
  exact sepSplitAux_count s.data [] rfl q hq

/-- Stripping never increases a character count. -/
def stripChars_count_le (a : Char) (l : List Char) :
    (stripChars l).count a ≤ l.count a := by
  unfold stripChars
  calc (((l.dropWhile pySpace).reverse.dropWhile pySpace).reverse).count a
      = ((l.dropWhile pySpace).reverse.dropWhile pySpace).count a := List.count_reverse ..
    _ ≤ ((l.dropWhile pySpace).reverse).count a :=
        (List.dropWhile_sublist _).count_le a
    _ = (l.dropWhile pySpace).count a := List.count_reverse ..
    _ ≤ l.count a := (List.dropWhile_sublist _).count_le a

/-- `pyStrip` never increases the dot count. -/
def dotCount_pyStrip_le (s : String) : dotCount (pyStrip s) ≤ dotCount s :=
  stripChars_count_le '.' s.data

/-- Every lower-case ASCII letter is one of the 26 characters. -/
def lowerAZ_mem (c : Char) (h : isLowerAZ c = true) :
    c ∈ (['a', 'b', 'c', 'd', 'e', 'f', 'g', 'h', 'i', 'j', 'k', 'l', 'm',
      'n', 'o', 'p', 'q', 'r', 's', 't', 'u', 'v', 'w', 'x', 'y', 'z'] : List Char) := by
  simp only [isLowerAZ, decide_eq_true_eq] at h
  obtain ⟨h1, h2⟩ := h
  have hc := Char.ofNat_toNat c
  rw [← hc]
  revert h1 h2
  generalize c.toNat = n
  intro h1 h2
  interval_cases n <;> decide

/-- `pyUpperChar` maps the dot to itself and nothing else to the dot. -/
def charUpper_dot (c : Char) : (pyUpperChar c = '.') ↔ (c = '.') := by
  by_cases h : isLowerAZ c = true
  · have hm := lowerAZ_mem c h
    fin_cases hm <;> decide
  · simp [pyUpperChar, h]

/-- `pyUpper` preserves the dot count. -/
def dotCount_pyUpper (s : String) : dotCount (pyUpper s) = dotCount s := by
  show (s.data.map pyUpperChar).count '.' = s.data.count '.'
  induction s.data with
  | nil => rfl
  | cons c cs ih =>
    have hb : (pyUpperChar c == '.') = (c == '.') := by
      by_cases hc : c = '.'
      · subst hc; decide
      · have h1 : pyUpperChar c ≠ '.' := fun hx => hc ((charUpper_dot c).mp hx)
        rw [beq_eq_false_iff_ne.mpr h1, beq_eq_false_iff_ne.mpr hc]
    simp only [List.map_cons, List.count_cons, ih, hb]

/-- `gloss_to_english` from `gloss_to_english.py`.  The first statement of
the `try` body normalises the input with `strip().upper()`; the direct
mapping is consulted next; the multi-sentence branch inlines
`process_multiple_sentences` (whose guard re-check coincides with the branch
condition, and whose recursive calls are on dot-free parts); the outer
`except` handler degrades errors to `glossBackup`. -/
def gloss_to_english (o : Oracles) (gloss : String) : String :=
  match pyDictGet gloss_direct_mappings (pyUpper (pyStrip gloss)) with
  | some v => v
  | none =>
    if h : pyIn "." (pyUpper (pyStrip gloss)) = true ∧
        pyEndsWith (pyUpper (pyStrip gloss)) "." = false then
      pyJoinWith " "
        ((((pySplitOn '.' (pyUpper (pyStrip gloss))).filter
          (fun p => pyStrip p ≠ "")).attach).map
          (fun p => gloss_to_english o (pyStrip p.1)))
    else
      match glossAfterMulti o (pyUpper (pyStrip gloss)) with
      | .ok s => s
      | .error _ => glossBackup (pyUpper (pyStrip gloss))
termination_by dotCount gloss
decreasing_by
  have hp : p.1 ∈ pySplitOn '.' (pyUpper (pyStrip gloss)) := (List.mem_filter.mp p.2).1
  have h0 : dotCount (pyStrip p.1) = 0 :=
    Nat.le_zero.mp (pySplitOn_dotCount _ _ hp ▸ dotCount_pyStrip_le p.1)
  have h2 : 0 < dotCount (pyUpper (pyStrip gloss)) := dot_pos_of_pyIn _ h.1
  rw [dotCount_pyUpper] at h2
  have h3 : 0 < dotCount gloss := lt_of_lt_of_le h2 (dotCount_pyStrip_le gloss)
  omega

end GlossToText

namespace TextToGloss

/-- An annotated token of the external spaCy annotator, as consumed by the
English→gloss modules: surface text, lemma, coarse POS, fine tag,
dependency label, index `i` and head index. -/
structure ETok where
  text : String
  lemma_ : String
  pos : String
  tag : String
  dep : String
  i : Nat
  head : Nat
deriving DecidableEq

/-- An annotated sentence (`Doc`): tokens plus named-entity spans
(text, label). -/
structure EDoc where
  toks : List ETok
  ents : List (String × String)
deriving DecidableEq

/-- spaCy `token.children`: the direct dependents of a token (the root's
self-loop head reference is not a child). -/
def children (doc : EDoc) (t : ETok) : List ETok :=
  doc.toks.filter (fun u => u.head == t.i && !(u.i == t.i))

/-- Modelled from the spec: the contents of `data/time_words.txt` used by
the English→gloss direction (one lower-case word per line); the file is not
part of the sources. -/
def time_words : List String := GlossToText.time_words

/-- Modelled from the spec: the contents of `data/wh_words.txt` used by the
English→gloss direction; the file is not part of the sources. -/
def wh_words : List String := GlossToText.wh_words

/-- `load_list` from `text_to_gloss/utils/helpers.py`: no handler, so a
missing file raises `FileNotFoundError`.  The file system is the oracle
`fs` (`none` models an absent file; lines are returned raw and normalised
here). -/
def load_list (fs : String → Option (List String)) (file_path : String) :
    Except PyErr (List String) :=
  match fs file_path with
  | some lines => .ok (lines.map (fun l => pyLower (pyStrip l)))
  | none => .error PyErr.fileNotFound

/-- `classify_sentence` from `text_to_gloss/modules/classifier.py`,
parametrised by the file-loaded wh-word list.  `doc[-1]` on an empty doc
and the `[0]` on an empty root list raise, modelled as `indexError`. -/
def classify_sentence (ww : List String) (doc : EDoc) : Except PyErr String :=
  match doc.toks.getLast? with
  | none => .error PyErr.indexError
  | some lastTok =>
    if lastTok.text = "?" then
      .ok (if doc.toks.any (fun t =>
          (["WDT", "WP", "WP$", "WRB"] : List String).contains t.tag ||
            ww.contains (pyLower t.text)) then
        "wh-question"
      else "yes-no-question")
    else
      match doc.toks.find? (fun t => t.dep == "ROOT") with
      | none => .error PyErr.indexError
      | some root =>
        match doc.toks.head? with
        | none => .error PyErr.indexError
        | some d0 =>
          if (root.pos = "VERB" ∧ root.tag = "VB" ∧
                (d0.dep ≠ "nsubj" ∨ pyLower d0.text = "please")) ∧
              (d0.pos = "VERB" ∨
                (1 < doc.toks.length ∧ pyLower d0.text = "please" ∧
                  ((doc.toks.get? 1).map (fun t => t.pos)).getD "" = "VERB")) then
            .ok "imperative"
          else .ok "declarative"

/-- `generate_gloss` from `modules/generator.py` (the generator module of
`text_to_gloss` is not under the sources; this sibling module is the one the
claims cite): strip, append `"?"` for questions when missing, and rejoin on
single spaces. -/
def generate_gloss (transformed_gloss : String) (sentence_type : String) : String :=
  let t := pyStrip transformed_gloss
  let t :=
    if (sentence_type = "yes-no-question" ∨ sentence_type = "wh-question") ∧
        ¬(pyEndsWith t "?" = true) then
      t ++ "?"
    else t
  pyJoinWith " " (pySplitWS t)

/-- The `direct_mappings` dict of `isl_pipeline`
(`text_to_gloss/main.py` lines 23-76). -/
def direct_mappings : List (String × String) :=
  [("the boy eats an apple", "BOY APPLE EAT"),
   ("boy eats an apple", "BOY APPLE EAT"),
   ("are you coming", "YOU COME?"),
   ("what did he eat", "HE EAT WHAT?"),
   ("yesterday, i went to school", "YESTERDAY I SCHOOL GO"),
   ("yesterday i went to school", "YESTERDAY I SCHOOL GO"),
   ("she is not happy", "SHE HAPPY NOT"),
   ("sit down", "SIT"),
   ("i am feeling thirsty", "I THIRSTY"),
   ("i feeling thirsty", "I THIRSTY"),
   ("are you busy", "YOU BUSY?"),
   ("i want to eat", "I WANT EAT"),
   ("i want to sleep", "I WANT SLEEP"),
   ("what is your name", "YOUR NAME WHAT?"),
   ("i am not going", "I GO NOT"),
   ("i am faraan", "I FARAAN"),
   ("i want to go to toilet", "I TOILET GO WANT"),
   ("i want water", "I WATER WANT"),
   ("i am not feeling well", "I WELL FEEL NOT"),
   ("i have fever", "I FEVER HAVE"),
   ("i have a fever", "I FEVER HAVE"),
   ("i have pain", "I PAIN HAVE"),
   ("i have a pain", "I PAIN HAVE"),
   ("please help me", "HELP ME PLEASE"),
   ("can you call doctor", "YOU CALL DOCTOR CAN?"),
   ("can you call a doctor", "YOU CALL DOCTOR CAN?"),
   ("can you take me to doctor", "YOU TAKE ME DOCTOR CAN?"),
   ("can you take me to a doctor", "YOU TAKE ME DOCTOR CAN?"),
   ("please inform my parents", "I PARENTS INFORM PLEASE"),
   ("i want to sit", "I WANT SIT"),
   ("i want to stand", "I WANT STAND"),
   ("i am in danger", "I DANGER"),
   ("it is an emergency", "EMERGENCY"),
   ("this is not right", "THIS RIGHT NOT"),
   ("this is not wrong", "THIS WRONG NOT"),
   ("i want to take rest", "I WANT REST"),
   ("i want to rest", "I WANT REST"),
   ("i need to take bath", "I NEED BATH"),
   ("i need a bath", "I NEED BATH"),
   ("i am not comfortable as there is a stranger in the house",
     "STRANGER HOUSE IN, I COMFORTABLE NOT"),
   ("what is your name, age and from which place are you coming from",
     "YOUR NAME WHAT? AGE WHAT? COME FROM WHERE?"),
   ("i am having a problem. can you help me", "I PROBLEM HAVE. YOU HELP ME CAN?"),
   ("i have a problem. can you help me", "I PROBLEM HAVE. YOU HELP ME CAN?"),
   ("i am feeling hot. can you switch on the fan", "I HOT FEEL. YOU FAN ON CAN?"),
   ("i feel hot. can you switch on the fan", "I HOT FEEL. YOU FAN ON CAN?"),
   ("why are you feeling sad", "YOU SAD FEEL WHY?"),
   ("why are you sad", "YOU SAD WHY?"),
   ("the shoes are big", "SHOES BIG"),
   ("the shoes are small", "SHOES SMALL"),
   ("the clothes are big", "CLOTHES BIG"),
   ("i am not well", "I WELL NOT"),
   ("thank you", "THANKYOU")]

/-- The top-level direct-mapping check of `isl_pipeline` (lines 78-86):
lower-case, strip, drop one trailing period, delete punctuation, look up. -/
def islOverride (sentence : String) : Option String :=
  let clean_sentence := pyStrip (pyLower sentence)
  let clean_sentence :=
    if pyEndsWith clean_sentence "." then String.mk clean_sentence.data.dropLast
    else clean_sentence
  pyDictGet direct_mappings (pyRemovePunct clean_sentence)

/-- `re.split(r",| and ", part)`: split on every comma or `" and "`,
scanning left to right (the two alternatives start with different
characters, so leftmost-first matching is plain pattern order). -/
def commaAndSplitAux : List Char → List Char → List (List Char)
  | acc, [] => [acc.reverse]
  | acc, ',' :: cs => acc.reverse :: commaAndSplitAux [] cs
  | acc, ' ' :: 'a' :: 'n' :: 'd' :: ' ' :: cs => acc.reverse :: commaAndSplitAux [] cs
  | acc, c :: cs => commaAndSplitAux (c :: acc) cs

/-- `re.split(r",| and ", s)` on strings. -/
def reSplitCommaAnd (s : String) : List String :=
  (commaAndSplitAux [] s.data).map String.mk

/-- The sentence/clause splitting of `isl_pipeline` (lines 88-98): split on
periods, keep the known compound question intact, split other
comma/"and"-compound questions into sub-clauses. -/
def islParts (sentence : String) : List String :=
  (((pySplitOn '.' sentence).map pyStrip).filter (fun s => s ≠ "")).flatMap
    (fun part =>
      if pyEndsWith part "?" ∧ (pyIn "," part ∨ pyIn " and " part) ∧
          pyIn "name, age and from which place" (pyLower part) then
        [part]
      else if pyEndsWith part "?" ∧ (pyIn "," part ∨ pyIn " and " part) then
        ((reSplitCommaAnd part).map pyStrip).filter (fun s => s ≠ "")
      else [part])

/-- The per-part direct-mapping check of `isl_pipeline` (lines 102-110):
lower-case, strip, drop one trailing `"."` or `"?"`, delete punctuation,
look up. -/
def islPartLookup (part : String) : Option String :=
  let clean_part := pyStrip (pyLower part)
  let clean_part :=
    if pyEndsWith clean_part "." ∨ pyEndsWith clean_part "?" then
      String.mk clean_part.data.dropLast
    else clean_part
  pyDictGet direct_mappings (pyRemovePunct clean_part)

/-- The post-processing corrections of `isl_pipeline` (lines 119-125). -/
def islPostProcess (part final_gloss : String) : String :=
  if pyIn "name, age and from which place" (pyLower part) then
    "YOUR NAME WHAT? AGE WHAT? COME FROM WHERE?"
  else if pyIn "can you take me to doctor" (pyLower part) then
    "YOU TAKE ME DOCTOR CAN?"
  else if pyIn "boy eats an apple" (pyLower part) ∨
      pyIn "the boy eats an apple" (pyLower part) then
    "BOY APPLE EAT"
  else final_gloss

/-- The per-part loop of `isl_pipeline` (lines 101-128): direct mapping,
otherwise the sub-pipeline `pp` (preprocess → classify → extract →
transform → generate) whose exceptions propagate, then post-processing;
empty glosses are skipped. -/
def islLoop (pp : String → Except PyErr String) :
    List String → Except PyErr (List String)
  | [] => .ok []
  | part :: rest =>
    match islPartLookup part with
    | some v =>
      match islLoop pp rest with
      | .ok gs => .ok (v :: gs)
      | .error e => .error e
    | none =>
      match pp part with
      | .error e => .error e
      | .ok g =>
        let final_gloss := islPostProcess part g
        match islLoop pp rest with
        | .ok gs => .ok (if final_gloss ≠ "" then final_gloss :: gs else gs)
        | .error e => .error e

/-- `isl_pipeline` from `text_to_gloss/main.py`, parametrised by the
per-part sub-pipeline `pp` (lines 113-117, which start with the external
spaCy `preprocess`); the function installs no exception handler, so a
failure of `pp` propagates to the caller. -/
def isl_pipeline (pp : String → Except PyErr String) (sentence : String) :
    Except PyErr String :=
  match islOverride sentence with
  | some v => .ok v
  | none =>
    match islLoop pp (islParts sentence) with
    | .error e => .error e
    | .ok glosses =>
      let result := pyJoinWith ". " glosses
      let result :=
        if result = "" then
          let clean_input := pyStrip (pyLower sentence)
          if pyIn "name" clean_input ∧ pyIn "?" clean_input then "YOUR NAME WHAT?"
          else if pyIn "thirsty" clean_input then "I THIRSTY"
          else result
        else result
      .ok result

/-- Python `s.lower().strip(",")` (strip comma characters from both ends
after lower-casing). -/
def lowerStripComma (s : String) : String :=
  let l := (pyLower s).data
  String.mk (((l.dropWhile (fun c => c = ',')).reverse.dropWhile (fun c => c = ',')).reverse)

/-- A main verb in the English→gloss extractor: a single token, or the
`(main, infinitive)` pair built for want/need constructions. -/
inductive EVerb where
  | tok (t : ETok)
  | pair (main inf : ETok)
deriving DecidableEq

/-- The mutable locals of `extract_components`
(`text_to_gloss/modules/extractor.py`). -/
structure EState where
  subject : Option ETok := none
  verb : Option EVerb := none
  original_verb : Option ETok := none
  object_ : Option ETok := none
  prep_object : Option ETok := none
  time_exp : Option ETok := none
  negation : Bool := false
  modal : Option ETok := none
  complement : Option ETok := none
  possessive : Option String := none
deriving DecidableEq

/-- First pass of the extractor: a time expression at the sentence start
(the `elif` re-tests the same head condition and is unreachable, embedded
as written). -/
def enFirstPass (tw : List String) (doc : EDoc) (st : EState) : EState :=
  match doc.toks.head? with
  | none => st
  | some d0 =>
    if tw.contains (lowerStripComma d0.text) then {st with time_exp := some d0}
    else if 2 < doc.toks.length ∧ tw.contains (lowerStripComma d0.text) ∧
        ((doc.toks.get? 1).map (fun t => t.text)).getD "" = "," then
      {st with time_exp := some d0}
    else st

/-- One iteration of the extractor's second pass (the big `elif` chain).
The named-entity check of the `poss` branch selects between two identical
f-strings, so only the single possessive string is built. -/
def enLoopStep (tw : List String) (doc : EDoc) (st : EState) (t : ETok) : EState :=
  if t.dep = "nsubj" ∨ t.dep = "nsubjpass" then
    if st.subject = none then
      if (pyLower t.text) ∈ ["the", "a", "an"] then
        if t.i + 1 < doc.toks.length then {st with subject := doc.toks.get? (t.i + 1)}
        else st
      else {st with subject := some t}
    else st
  else if t.dep = "ROOT" then {st with original_verb := some t, verb := some (.tok t)}
  else if t.dep = "dobj" then
    if st.object_ = none then
      if (pyLower t.text) ∈ ["the", "a", "an"] ∧ t.i + 1 < doc.toks.length then
        {st with object_ := doc.toks.get? (t.i + 1)}
      else {st with object_ := some t}
    else st
  else if t.dep = "advmod" ∨ t.dep = "npadvmod" ∨ t.dep = "tmod" then
    if tw.contains (lowerStripComma t.text) then {st with time_exp := some t} else st
  else if t.dep = "neg" then {st with negation := true}
  else if t.pos = "AUX" ∧ t.lemma_ ∉ ["be", "have"] then {st with modal := some t}
  else if t.dep = "poss" then
    match doc.toks.get? t.head with
    | some hd =>
      if hd.pos ∈ ["NOUN", "PROPN"] then
        {st with possessive := some (t.text ++ " " ++ hd.text)}
      else st
    | none => st
  else st

/-- The first-person fallback subject. -/
def enSubjectFallback (doc : EDoc) (st : EState) : EState :=
  if st.subject = none then
    match doc.toks.find? (fun t => t.pos == "PRON" && pyLower t.text == "i") with
    | some t => {st with subject := some t}
    | none => st
  else st

/-- The copular-"be" refinement block, including the existential `"it is"`
subject clearing. -/
def enBeBlock (doc : EDoc) (st : EState) : EState :=
  match st.original_verb with
  | some ov =>
    if ov.lemma_ = "be" then
      let kids := children doc ov
      let st :=
        match kids.find? (fun ch => ch.dep == "acomp" || ch.dep == "attr") with
        | some ch =>
          let st := {st with complement := some ch}
          if ch.pos ∈ ["ADJ", "NOUN", "PROPN"] then {st with verb := some (.tok ch)}
          else st
        | none => st
      let st :=
        if st.complement = none then
          kids.foldl (fun st child =>
            if child.dep = "prep" then
              (children doc child).foldl (fun st g =>
                if g.dep = "pobj" then
                  let newVerb :=
                    if st.verb = none ∨ st.verb = some (EVerb.tok ov) then some (EVerb.tok g)
                    else st.verb
                  {st with prep_object := some g, verb := newVerb}
                else st) st
            else st) st
        else st
      match st.subject with
      | some s =>
        if pyLower s.text = "it" then
          match st.complement with
          | some comp => if comp.pos = "NOUN" then {st with subject := none} else st
          | none => st
        else st
      | none => st
    else st
  | none => st

/-- The "feel" refinement block (no break: the last matching child wins). -/
def enFeelBlock (doc : EDoc) (st : EState) : EState :=
  match st.original_verb with
  | some ov =>
    if ov.lemma_ = "feel" then
      (children doc ov).foldl (fun st child =>
        if child.dep ∈ ["acomp", "advmod", "xcomp"] ∨ child.pos ∈ ["ADV", "ADJ"] then
          let st := {st with complement := some child}
          if (pyLower child.text) ∈ ["well", "hot", "cold", "thirsty"] then
            {st with verb := some (.tok child)}
          else st
        else st) st
    else st
  | none => st

/-- The want/need-with-infinitive refinement block (`for`/`else` on the
take-rest/take-bath search; prepositional objects of the infinitive, last
`prep` child winning with its first `pobj`). -/
def enWantNeedBlock (doc : EDoc) (st : EState) : EState :=
  match st.original_verb with
  | some ov =>
    if ov.lemma_ ∈ ["want", "need"] then
      match (children doc ov).find?
          (fun ch => ch.dep == "xcomp" || (ch.dep == "dobj" && ch.pos == "VERB")) with
      | some inf =>
        let st :=
          if inf.lemma_ = "take" then
            match (children doc inf).find? (fun ic =>
                ic.dep == "dobj" &&
                  (["rest", "bath"] : List String).contains (pyLower ic.text)) with
            | some ic => {st with verb := some (.pair ov ic)}
            | none => {st with verb := some (.pair ov inf)}
          else {st with verb := some (.pair ov inf)}
        (children doc inf).foldl (fun st ic =>
          if ic.dep = "prep" then
            match (children doc ic).find? (fun p => p.dep == "pobj") with
            | some p => {st with prep_object := some p}
            | none => st
          else st) st
      | none => st
    else st
  | none => st

/-- The prepositional-object fallback: the first `prep` token with a `pobj`
child, when neither object slot is filled. -/
def enPrepFallback (doc : EDoc) (st : EState) : EState :=
  if st.prep_object = none ∧ st.object_ = none then
    match doc.toks.findSome? (fun t =>
        if t.dep = "prep" then (children doc t).find? (fun ch => ch.dep == "pobj")
        else none) with
    | some p => {st with prep_object := some p}
    | none => st
  else st

/-- The phrasal `"switch on"` block: for each `switch` root, look for an
on/off particle, re-scan the doc for `fan`/`light`, and collapse the verb
to that object when both are present. -/
def enSwitchBlock (doc : EDoc) (st : EState) : EState :=
  doc.toks.foldl (fun st t =>
    if t.lemma_ = "switch" ∧ t.dep = "ROOT" then
      let particle := (children doc t).find? (fun ch =>
        ch.dep == "prt" && (["on", "off"] : List String).contains (pyLower ch.text))
      let st :=
        match doc.toks.find? (fun u => pyLower u.text == "fan" || pyLower u.text == "light") with
        | some f => {st with prep_object := some f}
        | none => st
      match st.prep_object, particle with
      | some po, some _ => {st with verb := some (.tok po)}
      | _, _ => st
    else st) st

/-- `extract_components` from `text_to_gloss/modules/extractor.py`,
parametrised by the file-loaded time-word list. -/
def extract_components (tw : List String) (doc : EDoc) : EState :=
  let st := enFirstPass tw doc {}
  let st := doc.toks.foldl (enLoopStep tw doc) st
  let st := enSubjectFallback doc st
  let st := enBeBlock doc st
  let st := enFeelBlock doc st
  let st := enWantNeedBlock doc st
  let st := enPrepFallback doc st
  enSwitchBlock doc st

/-- `finger_spell` from `text_to_gloss/utils/helpers.py`: upper-case and
join the characters with spaces. -/
def finger_spell (w : String) : String :=
  pyJoinWith " " ((pyUpper w).data.map (fun ch => String.mk [ch]))

/-- Python `original_verb and original_verb.lemma_ == s`. -/
def ovLemmaIs (st : EState) (s : String) : Bool :=
  match st.original_verb with
  | some ov => ov.lemma_ == s
  | none => false

/-- Python `complement and complement.pos_ == s`. -/
def compPosIs (st : EState) (s : String) : Bool :=
  match st.complement with
  | some comp => comp.pos == s
  | none => false

/-- The verb gloss of `transform_components`: absent (`none`) exactly when
the Python dict would have no `"verb"` key, so that a later access raises
`KeyError`. -/
def transformVerbGloss (st : EState) : Option String :=
  match st.verb with
  | some (.tok v) =>
    if ovLemmaIs st "be" ∧ compPosIs st "PROPN" then
      some (pyUpper ((st.complement.map (fun comp => comp.text)).getD ""))
    else if v.pos = "PROPN" then some (finger_spell v.text)
    else some (pyUpper v.lemma_)
  | _ => none

/-- `transform_components` from `text_to_gloss/modules/transformer.py`,
parametrised by the file-loaded wh-word list. -/
def transform_components (ww : List String) (sentence_type : String) (st : EState)
    (doc : EDoc) : Except PyErr String :=
  let gSubject := match st.subject with | some s => pyUpper s.text | none => ""
  let gTime := match st.time_exp with | some t => pyUpper t.text | none => ""
  let gObject := match st.object_ with | some ob => pyUpper ob.text | none => ""
  let gPrep := match st.prep_object with | some p => pyUpper p.text | none => ""
  let gModal := match st.modal with | some m => pyUpper m.text | none => ""
  let gComplement := match st.complement with | some c => pyUpper c.text | none => ""
  let gPoss := match st.possessive with | some p => pyUpper p | none => ""
  let gSubject :=
    if gSubject = "" ∧ 0 < doc.toks.length then
      match doc.toks.find? (fun t => t.pos == "PRON" && pyLower t.text == "i") with
      | some t => pyUpper t.text
      | none => gSubject
    else gSubject
  let gVerb := transformVerbGloss st
  let politeness := if doc.toks.any (fun t => pyLower t.text == "please") then " PLEASE" else ""
  if sentence_type = "declarative" then
    let base : Except PyErr String :=
      if ovLemmaIs st "feel" then
        let comp := pyStrip (gComplement.replace "FEEL" "")
        let b :=
          if comp = "THIRSTY" then gTime ++ " " ++ gSubject ++ " " ++ comp
          else gTime ++ " " ++ gSubject ++ " " ++ comp ++ " FEEL"
        .ok (if st.negation then b ++ " NOT" else b)
      else
        match st.verb with
        | some (.pair mainV infV) =>
          if gPrep ≠ "" then
            .ok (gTime ++ " " ++ gSubject ++ " " ++ gPrep ++ " " ++ pyUpper infV.text ++
              " " ++ pyUpper mainV.lemma_)
          else
            .ok (gTime ++ " " ++ gSubject ++ " " ++ pyUpper mainV.lemma_ ++ " " ++
              pyUpper infV.text)
        | _ =>
          if ovLemmaIs st "be" then
            match gVerb with
            | none => .error PyErr.keyError
            | some gv =>
              let b := if gSubject = "IT" then gv else gTime ++ " " ++ gSubject ++ " " ++ gv
              .ok (if st.negation then b ++ " NOT" else b)
          else
            match gVerb with
            | none => .error PyErr.keyError
            | some gv =>
              let b :=
                if gObject ≠ "" then gTime ++ " " ++ gSubject ++ " " ++ gObject ++ " " ++ gv
                else if gPrep ≠ "" then gTime ++ " " ++ gSubject ++ " " ++ gPrep ++ " " ++ gv
                else gTime ++ " " ++ gSubject ++ " " ++ gv
              .ok (if st.negation then b ++ " NOT" else b)
    match base with
    | .error e => .error e
    | .ok b =>
      let b :=
        if doc.toks.any (fun t => pyLower t.text == "stranger") ∧
            doc.toks.any (fun t => pyLower t.text == "house") then
          "STRANGER HOUSE IN, " ++ pyStrip b
        else b
      .ok (pyJoinWith " " (pySplitWS b))
  else if sentence_type = "yes-no-question" then
    if ovLemmaIs st "switch" ∧ gPrep ≠ "" then
      let g := gSubject ++ " " ++ gPrep ++ " ON"
      let g := if gModal ≠ "" then g ++ " " ++ gModal else g
      .ok (pyJoinWith " " (pySplitWS (g ++ "?")))
    else if st.modal.isSome then
      match gVerb with
      | none => .error PyErr.keyError
      | some gv =>
        .ok (pyJoinWith " " (pySplitWS
          (gSubject ++ " " ++ gv ++ " " ++ gObject ++ " " ++ gPrep ++ " " ++ gModal ++ "?")))
    else
      match gVerb with
      | none => .error PyErr.keyError
      | some gv => .ok (pyJoinWith " " (pySplitWS (gSubject ++ " " ++ gv ++ "?")))
  else if sentence_type = "wh-question" then
    let wh :=
      match doc.toks.find? (fun t => ww.contains (pyLower t.text)) with
      | some t => pyUpper t.text
      | none => ""
    if gPoss ≠ "" then .ok (gPoss ++ " " ++ wh ++ "?")
    else if ovLemmaIs st "feel" then
      .ok (gSubject ++ " " ++ gComplement ++ " FEEL " ++ wh ++ "?")
    else
      match gVerb with
      | none => .error PyErr.keyError
      | some gv => .ok (((gSubject ++ " " ++ gv ++ " " ++ wh).replace " BE" "") ++ "?")
  else if sentence_type = "imperative" then
    let subject_part := if gPoss ≠ "" then gPoss else gSubject
    let obj_part := if gPoss ≠ "" then "" else gObject
    let obj_part := if obj_part = "DOWN" then "" else obj_part
    match gVerb with
    | none => .error PyErr.keyError
    | some gv =>
      .ok (pyJoinWith " " (pySplitWS (subject_part ++ " " ++ gv ++ " " ++ obj_part ++ politeness)))
  else .ok ""

/-- The spaCy-dependent sub-pipeline of `isl_pipeline` (lines 113-117):
preprocess (the annotator oracle `annot`), classify, extract, transform,
generate. -/
def islProcessPart (annot : String → Except PyErr EDoc) (part : String) :
    Except PyErr String :=
  match annot part with
  | .error e => .error e
  | .ok doc =>
    match classify_sentence wh_words doc with
    | .error e => .error e
    | .ok ty =>
      let comps := extract_components time_words doc
      match transform_components wh_words ty comps doc with
      | .error e => .error e
      | .ok transformed => .ok (generate_gloss transformed ty)

/-- `isl_pipeline` composed with its real sub-pipeline, leaving only the
external annotator as an oracle. -/
def isl_pipeline_run (annot : String → Except PyErr EDoc) (sentence : String) :
    Except PyErr String :=
  isl_pipeline (islProcessPart annot) sentence

end TextToGloss

namespace GlossToText

/-- The path candidates tried by `load_list` of `gloss_to_english.py`
(the given path, its parent-relative variant, and the two `data/`
fallbacks built from the file name). -/
def loadCandidates (file_path : String) : List String :=
  [file_path,
   "../" ++ file_path,
   "data/" ++ (pySplitOn '/' file_path).getLastD "",
   "../data/" ++ (pySplitOn '/' file_path).getLastD ""]

/-- `load_list` from `gloss_to_english.py`: try the candidate paths in
order, skip missing files, and fall back to the empty list (with a printed
warning) when none exists. -/
def load_list (fs : String → Option (List String)) (file_path : String) : List String :=
  match (loadCandidates file_path).findSome?
      (fun p => (fs p).map (fun lines => lines.map (fun l => pyLower (pyStrip l)))) with
  | some ls => ls
  | none => []

/-- The `try` body of `gloss_to_english` (everything before the `except`),
on the already-normalised gloss: direct mapping, the multi-sentence branch,
then patterns and the general path. -/
def glossTryBody (o : Oracles) (g : String) : Except PyErr String :=
  match pyDictGet gloss_direct_mappings g with
  | some v => .ok v
  | none =>
    if pyIn "." g = true ∧ pyEndsWith g "." = false then
      .ok (pyJoinWith " "
        (((pySplitOn '.' g).filter (fun p => pyStrip p ≠ "")).map
          (fun p => gloss_to_english o (pyStrip p))))
    else glossAfterMulti o g

/-- An oracle assignment on which every external call fails, used to
instantiate theorems at concrete inputs whose computation never reaches the
collaborators. -/
def oracleStub : Oracles :=
  ⟨fun _ => .error (PyErr.oracleFailure "spacy"),
   fun _ _ => .error (PyErr.oracleFailure "lemminflect")⟩

end GlossToText

namespace TextToGloss

/-- A sub-pipeline stub returning a fixed gloss, used to exhibit that
`isl_pipeline` consults the rule pipeline (its output tracks the
sub-pipeline, not the override table). -/
def ppStub : String → Except PyErr String := fun _ => .ok "X"

/-- An annotator assignment that always fails, modelling a raising spaCy
collaborator. -/
def annotFail : String → Except PyErr EDoc := fun _ => .error (PyErr.oracleFailure "spacy")

/-- A plausible annotation of the English sentence `"what is your name"`
(no trailing question mark): wh-word, copular root, possessive, nominal
subject. -/
def docWhatName : EDoc :=
  ⟨[⟨"what", "what", "PRON", "WP", "attr", 0, 1⟩,
    ⟨"is", "be", "AUX", "VBZ", "ROOT", 1, 1⟩,
    ⟨"your", "your", "PRON", "PRP$", "poss", 2, 3⟩,
    ⟨"name", "name", "NOUN", "NN", "nsubj", 3, 1⟩], []⟩

/-- A plausible annotation of `"are you coming ?"`: a yes-no question with
a trailing question-mark token and no wh-word. -/
def docAreYouComing : EDoc :=
  ⟨[⟨"are", "be", "AUX", "VBP", "aux", 0, 2⟩,
    ⟨"you", "you", "PRON", "PRP", "nsubj", 1, 2⟩,
    ⟨"coming", "come", "VERB", "VBG", "ROOT", 2, 2⟩,
    ⟨"?", "?", "PUNCT", ".", "punct", 3, 2⟩], []⟩

end TextToGloss

/-- Characters surviving `re.sub(r'[^\w\s]', '', ·)`: a string is
punctuation-free when it has only word and whitespace characters. -/
def punctFree (s : String) : Bool :=
  s.data.all (fun c => isWordChar c || pySpace c)

/-- The first character is an upper-case letter. -/
def startsCapital (s : String) : Bool :=
  match s.data with
  | c :: _ => isUpperAZ c
  | [] => false

/-- The string ends in exactly one `"."` or `"?"`: the last character is
terminal punctuation and the one before it is not. -/
def endsOnePunct (s : String) : Bool :=
  match s.data.reverse with
  | c1 :: c2 :: _ => (c1 == '.' || c1 == '?') && !(c2 == '.' || c2 == '?')
  | [c1] => c1 == '.' || c1 == '?'
  | [] => false

/-- No two adjacent spaces anywhere in the string. -/
def noDoubleSpace (s : String) : Bool := !(pyIn "  " s)

/-! ### Shared lemmas -/

/-- A hit in the normalised direct-mapping table short-circuits
`gloss_to_english`. -/
theorem gloss_direct_hit (o : GlossToText.Oracles) (k v : String)
    (h : pyDictGet GlossToText.gloss_direct_mappings (pyUpper (pyStrip k)) = some v) :
    GlossToText.gloss_to_english o k = v := by
  rw [GlossToText.gloss_to_english, h]

/-- A hit in the top-level override table short-circuits `isl_pipeline`. -/
theorem isl_override_hit (pp : String → Except PyErr String) (s v : String)
    (h : TextToGloss.islOverride s = some v) :
    TextToGloss.isl_pipeline pp s = .ok v := by
  unfold TextToGloss.isl_pipeline
  rw [h]

/-- The catch structure of `gloss_to_english`: the function equals its
`try` body when that succeeds and the backup heuristic when it fails — in
either case a plain string. -/
theorem gloss_catch_eq (o : GlossToText.Oracles) (g : String) :
    GlossToText.gloss_to_english o g =
      match GlossToText.glossTryBody o (pyUpper (pyStrip g)) with
      | .ok s => s
      | .error _ => GlossToText.glossBackup (pyUpper (pyStrip g)) := by
  rw [GlossToText.gloss_to_english]
  unfold GlossToText.glossTryBody
  cases hd : pyDictGet GlossToText.gloss_direct_mappings (pyUpper (pyStrip g)) with
  | some v => simp [hd]
  | none =>
    simp only [hd]
    by_cases hm : pyIn "." (pyUpper (pyStrip g)) = true ∧
        pyEndsWith (pyUpper (pyStrip g)) "." = false
    · rw [dif_pos hm, if_pos hm]
      congr 1
      exact List.attach_map_coe
        ((pySplitOn '.' (pyUpper (pyStrip g))).filter (fun p => pyStrip p ≠ ""))
        (fun x => GlossToText.gloss_to_english o (pyStrip x))
    · rw [dif_neg hm, if_neg hm]

/-! ### C1: the override/direct-mapping tables -/

/-- C1 counterexample: `"i am having a problem. can you help me"` is a key
of the `isl_pipeline` override table, but the lookup normalisation deletes
the period from the input while the stored key retains it, so the override
never matches; the call runs the rule pipeline on the two split clauses —
its result tracks the sub-pipeline (here the stub constantly returning
`"X"`), and a failing annotator even propagates — instead of returning the
tabulated string. -/
theorem C1_counterexample :
    ("i am having a problem. can you help me", "I PROBLEM HAVE. YOU HELP ME CAN?") ∈
        TextToGloss.direct_mappings ∧
      TextToGloss.islOverride "i am having a problem. can you help me" = none ∧
      TextToGloss.isl_pipeline TextToGloss.ppStub "i am having a problem. can you help me" =
        .ok "X. X" ∧
      TextToGloss.isl_pipeline_run TextToGloss.annotFail
        "i am having a problem. can you help me" = .error (PyErr.oracleFailure "spacy") := by
  decide

/-- C1 (amended): every key of the gloss→English direct-mapping table
returns exactly its tabulated string (the lookup happens before anything
else); in the English→gloss direction the same holds for every key free of
punctuation characters — keys containing `","` or `"."` cannot match the
punctuation-stripped input. -/
theorem C1_theorem :
    (∀ (o : GlossToText.Oracles) kv, kv ∈ GlossToText.gloss_direct_mappings →
      GlossToText.gloss_to_english o kv.1 = kv.2) ∧
    (∀ (pp : String → Except PyErr String) kv, kv ∈ TextToGloss.direct_mappings →
      punctFree kv.1 = true → TextToGloss.isl_pipeline pp kv.1 = .ok kv.2) := by
  constructor
  · intro o kv hkv
    have hall : ∀ kv ∈ GlossToText.gloss_direct_mappings,
        pyDictGet GlossToText.gloss_direct_mappings (pyUpper (pyStrip kv.1)) = some kv.2 := by
      decide
    exact gloss_direct_hit o kv.1 kv.2 (hall kv hkv)
  · intro pp kv hkv hpf
    have hall : ∀ kv ∈ TextToGloss.direct_mappings, punctFree kv.1 = true →
        TextToGloss.islOverride kv.1 = some kv.2 := by
      decide
    exact isl_override_hit pp kv.1 kv.2 (hall kv hkv hpf)

/-- C1 witness: both directions at concrete table keys. -/
theorem C1_witness :
    GlossToText.gloss_to_english GlossToText.oracleStub "I THIRSTY" = "I am thirsty." ∧
      TextToGloss.isl_pipeline TextToGloss.ppStub "please help me" = .ok "HELP ME PLEASE" :=
  ⟨C1_theorem.1 GlossToText.oracleStub ("I THIRSTY", "I am thirsty.") (by decide),
    C1_theorem.2 TextToGloss.ppStub ("please help me", "HELP ME PLEASE")
      (by decide) (by decide)⟩

/-! ### C2: exception propagation at the translation boundary -/

/-- C2 counterexample: `isl_pipeline` installs no exception handler, so an
annotator failure on an input outside the override table propagates to the
caller (the HTTP layer in `app.py` is what catches it) — `translateToGloss`
does not always return a string. -/
theorem C2_counterexample :
    TextToGloss.isl_pipeline_run TextToGloss.annotFail "hello there my friend" =
      .error (PyErr.oracleFailure "spacy") := by
  decide

/-- C2 (amended): only `translateToEnglish` has the claimed failure
semantics — its whole `try` body is caught and degraded to `glossBackup`,
so it always returns a string; `translateToGloss` propagates any error of
its spaCy-dependent sub-pipeline to the caller. -/
theorem C2_theorem :
    (∀ (o : GlossToText.Oracles) (g : String),
      GlossToText.gloss_to_english o g =
        match GlossToText.glossTryBody o (pyUpper (pyStrip g)) with
        | .ok s => s
        | .error _ => GlossToText.glossBackup (pyUpper (pyStrip g))) ∧
    (∀ (annot : String → Except PyErr TextToGloss.EDoc) (g : String) (e : PyErr)
      (p : String) (rest : List String),
      TextToGloss.islOverride g = none →
      TextToGloss.islParts g = p :: rest →
      TextToGloss.islPartLookup p = none →
      annot p = .error e →
      TextToGloss.isl_pipeline_run annot g = .error e) := by
  constructor
  · exact gloss_catch_eq
  · intro annot g e p rest hov hparts hlook hann
    unfold TextToGloss.isl_pipeline_run TextToGloss.isl_pipeline
    rw [hov, hparts]
    unfold TextToGloss.islLoop
    rw [hlook]
    unfold TextToGloss.islProcessPart
    rw [hann]

/-- C2 witness: the catch equation at the gloss `"PLEASE"` (whose
imperative frame has no verb, so the transformation raises internally and
the backup two-token heuristic answers), and a concrete propagated
annotator failure on the other side. -/
theorem C2_witness :
    GlossToText.gloss_to_english GlossToText.oracleStub "PLEASE" =
        GlossToText.glossBackup "PLEASE" ∧
      TextToGloss.isl_pipeline_run TextToGloss.annotFail "good morning friend" =
        .error (PyErr.oracleFailure "spacy") :=
  ⟨(C2_theorem.1 GlossToText.oracleStub "PLEASE").trans (by decide),
    C2_theorem.2 TextToGloss.annotFail "good morning friend" (PyErr.oracleFailure "spacy")
      "good morning friend" [] (by decide) (by decide) (by decide) rfl⟩

/-! ### C3: the gloss-direction sentence-type classifier -/

/-- C3 counterexample: the gloss `"CAN"` has the modal `"CAN"` as its last
token, yet `detect_sentence_type` classifies it as declarative, not as a
yes-no question, because the code additionally requires at least two
tokens. -/
theorem C3_counterexample :
    GlossToText.detect_sentence_type GlossToText.wh_words "CAN" = "declarative" ∧
      (pySplitWS "CAN").getLastD "" = "CAN" := by
  decide

/-- C3 (amended): the gloss classifier applies its rules in order — a
wh-word token anywhere gives wh-question; otherwise a trailing `"?"` or a
final `"CAN"` token **in a gloss of at least two tokens** gives
yes-no-question; otherwise `"PLEASE"` or a leading command verb gives
imperative; otherwise declarative. -/
theorem C3_theorem (ww : List String) (g : String) :
    (((pySplitWS g).any (fun w =>
        ww.contains (pyLower w) || GlossToText.hard_wh_list.contains w)) = true →
      GlossToText.detect_sentence_type ww g = "wh-question") ∧
    (((pySplitWS g).any (fun w =>
        ww.contains (pyLower w) || GlossToText.hard_wh_list.contains w)) = false →
      (pyEndsWith g "?" ||
        (decide (2 ≤ (pySplitWS g).length) && ((pySplitWS g).getLastD "" == "CAN"))) = true →
      GlossToText.detect_sentence_type ww g = "yes-no-question") ∧
    (((pySplitWS g).any (fun w =>
        ww.contains (pyLower w) || GlossToText.hard_wh_list.contains w)) = false →
      (pyEndsWith g "?" ||
        (decide (2 ≤ (pySplitWS g).length) && ((pySplitWS g).getLastD "" == "CAN"))) = false →
      ((pySplitWS g).contains "PLEASE" ||
        (!(pySplitWS g).isEmpty &&
          (["go", "come", "sit", "stand", "help"] : List String).contains
            (pyLower ((pySplitWS g).headD "")))) = true →
      GlossToText.detect_sentence_type ww g = "imperative") ∧
    (((pySplitWS g).any (fun w =>
        ww.contains (pyLower w) || GlossToText.hard_wh_list.contains w)) = false →
      (pyEndsWith g "?" ||
        (decide (2 ≤ (pySplitWS g).length) && ((pySplitWS g).getLastD "" == "CAN"))) = false →
      ((pySplitWS g).contains "PLEASE" ||
        (!(pySplitWS g).isEmpty &&
          (["go", "come", "sit", "stand", "help"] : List String).contains
            (pyLower ((pySplitWS g).headD "")))) = false →
      GlossToText.detect_sentence_type ww g = "declarative") := by
  refine ⟨fun h1 => ?_, fun h1 h2 => ?_, fun h1 h2 h3 => ?_, fun h1 h2 h3 => ?_⟩ <;>
    (simp only [GlossToText.detect_sentence_type]; split_ifs <;> simp_all) <;>
    (rename_i hex; obtain ⟨x, hxm, hor⟩ := hex; have := h1 x hxm; tauto)

/-- C3 witness: the amended classifier rules at a concrete imperative
gloss. -/
theorem C3_witness :
    GlossToText.detect_sentence_type GlossToText.wh_words "HELP ME PLEASE" = "imperative" :=
  (C3_theorem GlossToText.wh_words "HELP ME PLEASE").2.2.1 (by decide) (by decide) (by decide)

/-! ### C4: shape of `translateToGloss` output -/

/-- Words produced by the whitespace splitter are nonempty and contain no
whitespace characters (given the same invariant for the accumulator). -/
theorem wsWordsAux_sound (l : List Char) : ∀ acc, (∀ c ∈ acc, pySpace c = false) →
    ∀ w ∈ wsWordsAux acc l, w ≠ [] ∧ ∀ c ∈ w, pySpace c = false := by
  induction l with
  | nil =>
    intro acc hacc w hw
    by_cases he : acc.isEmpty = true
    · simp [wsWordsAux, he] at hw
    · simp only [wsWordsAux, if_neg he, List.mem_singleton] at hw
      subst hw
      refine ⟨by simpa [List.isEmpty_iff] using he, fun c hc => hacc c (List.mem_reverse.mp hc)⟩
  | cons d cs ih =>
    intro acc hacc w hw
    simp only [wsWordsAux] at hw
    by_cases hd : pySpace d = true
    · rw [if_pos hd] at hw
      by_cases he : acc.isEmpty = true
      · rw [if_pos he] at hw
        exact ih [] (by simp) w hw
      · rw [if_neg he] at hw
        rcases List.mem_cons.mp hw with h1 | h2
        · subst h1
          refine ⟨by simpa [List.isEmpty_iff] using he,
            fun c hc => hacc c (List.mem_reverse.mp hc)⟩
        · exact ih [] (by simp) w h2
    · rw [if_neg hd] at hw
      refine ih (d :: acc) ?_ w hw
      intro c hc
      rcases List.mem_cons.mp hc with rfl | h
      · simpa using hd
      · exact hacc c h

/-- When the input ends in a non-whitespace character, the last word of the
whitespace split ends in that character. -/
theorem wsWordsAux_last_endsWith (x : Char) (hx : pySpace x = false) :
    ∀ (l acc : List Char), ∃ w, (wsWordsAux acc (l ++ [x])).getLast? = some (w ++ [x]) := by
  intro l
  induction l with
  | nil =>
    intro acc
    refine ⟨acc.reverse, ?_⟩
    simp [wsWordsAux, hx]
  | cons d cs ih =>
    intro acc
    simp only [List.cons_append, wsWordsAux]
    by_cases hd : pySpace d = true
    · rw [if_pos hd]
      by_cases he : acc.isEmpty = true
      · rw [if_pos he]
        exact ih []
      · rw [if_neg he]
        obtain ⟨w, hw⟩ := ih []
        refine ⟨w, ?_⟩
        cases hws : wsWordsAux [] (cs ++ [x]) with
        | nil => rw [hws] at hw; simp at hw
        | cons y ys =>
          rw [hws] at hw
          rw [List.getLast?_cons_cons]
          exact hw
    · rw [if_neg hd]
      exact ih (d :: acc)

/-- The last word of a list is a suffix of the separator join. -/
theorem join_getLast_suffix (sep : List Char) : ∀ (ws : List (List Char)) (w : List Char),
    ws.getLast? = some w → w <:+ pyJoin sep ws := by
  intro ws
  induction ws with
  | nil => simp
  | cons a t ih =>
    intro w hw
    cases t with
    | nil =>
      simp only [List.getLast?_singleton, Option.some.injEq] at hw
      subst hw
      exact List.suffix_refl _
    | cons b t' =>
      have hw' : (b :: t').getLast? = some w := by simpa using hw
      have hsub := ih w hw'
      show w <:+ a ++ sep ++ pyJoin sep (b :: t')
      rw [List.append_assoc]
      exact hsub.trans ((List.suffix_append _ _).trans (List.suffix_append _ _))

/-- C4 counterexample: for the input
`"i am not comfortable as there is a stranger in the house"`,
`translateToGloss` returns the override entry
`"STRANGER HOUSE IN, I COMFORTABLE NOT"`, which contains a comma —
internal punctuation beyond a single trailing `"?"`. -/
theorem C4_counterexample :
    TextToGloss.isl_pipeline TextToGloss.ppStub
        "i am not comfortable as there is a stranger in the house" =
      .ok "STRANGER HOUSE IN, I COMFORTABLE NOT" ∧
    pyIn "," "STRANGER HOUSE IN, I COMFORTABLE NOT" = true := by
  decide

/-- C4 (amended): the pipeline's generator output is a single-space join of
nonempty whitespace-free tokens and ends with `"?"` for question types, but
override-table outputs (and multi-clause joins) may carry internal
punctuation such as commas and periods. -/
theorem C4_theorem (s ty : String) :
    (∃ ws : List String,
      (∀ w ∈ ws, w ≠ "" ∧ w.data.all (fun c => !pySpace c) = true) ∧
      TextToGloss.generate_gloss s ty = pyJoinWith " " ws) ∧
    ((ty = "yes-no-question" ∨ ty = "wh-question") →
      pyEndsWith (TextToGloss.generate_gloss s ty) "?" = true) := by
  constructor
  · refine ⟨pySplitWS (if (ty = "yes-no-question" ∨ ty = "wh-question") ∧
      ¬(pyEndsWith (pyStrip s) "?" = true) then pyStrip s ++ "?" else pyStrip s), ?_, rfl⟩
    intro w hw
    simp only [pySplitWS, List.mem_map] at hw
    obtain ⟨q, hq, rfl⟩ := hw
    obtain ⟨hne, hchars⟩ := wsWordsAux_sound _ [] (by simp) q hq
    constructor
    · exact fun hcon => hne (congrArg String.data hcon)
    · show q.all (fun c => !pySpace c) = true
      simp only [List.all_eq_true]
      intro c hc
      simp [hchars c hc]
  · intro hq
    have key : ∀ t : String, pyEndsWith t "?" = true →
        pyEndsWith (pyJoinWith " " (pySplitWS t)) "?" = true := by
      intro t ht
      have hsuf : ("?".data) <:+ t.data := by
        simpa [pyEndsWith] using ht
      obtain ⟨l, hl⟩ := hsuf
      obtain ⟨w, hw⟩ := wsWordsAux_last_endsWith '?' (by decide) l []
      have hdata : (pyJoinWith " " (pySplitWS t)).data =
          pyJoin (" ".data) (wsWordsAux [] t.data) := by
        show pyJoin (" ".data) (((wsWordsAux [] t.data).map String.mk).map String.data) =
          pyJoin (" ".data) (wsWordsAux [] t.data)
        rw [List.map_map, show String.data ∘ String.mk = id from funext fun _ => rfl,
          List.map_id]
      show ("?".data).isSuffixOf (pyJoinWith " " (pySplitWS t)).data = true
      rw [List.isSuffixOf_iff_suffix, hdata, ← hl]
      have hj := join_getLast_suffix (" ".data) (wsWordsAux [] (l ++ "?".data)) (w ++ ['?'])
        (by simpa using hw)
      exact ((List.suffix_append w ['?']).trans (by simpa using hj))
    show pyEndsWith (pyJoinWith " " (pySplitWS _)) "?" = true
    apply key
    by_cases he : pyEndsWith (pyStrip s) "?" = true
    · rw [if_neg (fun hc => hc.2 he)]
      exact he
    · rw [if_pos ⟨hq, he⟩]
      show ("?".data).isSuffixOf (pyStrip s ++ "?").data = true
      rw [List.isSuffixOf_iff_suffix, String.data_append]
      exact List.suffix_append _ _

/-- C4 witness: the question-mark and token-shape facts at a concrete
unnormalised input. -/
theorem C4_witness :
    pyEndsWith (TextToGloss.generate_gloss " HELLO  WORLD " "wh-question") "?" = true :=
  ( C4_theorem " HELLO  WORLD " "wh-question").2 (Or.inr rfl)

/-! ### C5: shape of `translateToEnglish` output -/

/-- C5 counterexample: the pure yesterday-pattern branch echoes the
residual input text (here `"SCHOOL."`) before appending its own period, so
the output ends in two periods, not exactly one. -/
theorem C5_counterexample :
    GlossToText.gloss_to_english GlossToText.oracleStub "YESTERDAY I GO SCHOOL." =
        "Yesterday, I went to school.." ∧
      endsOnePunct "Yesterday, I went to school.." = false := by
  refine ⟨?_, by decide⟩
  rw [GlossToText.gloss_to_english]
  decide

/-- C5 (amended): every output drawn from the two literal translation
tables of the gloss→English direction (the direct-mapping override table
and the refine-stage mapping) starts with a capital letter and ends in
exactly one `"."` or `"?"`; the pattern-branch fallbacks, which echo
residual input, need not. -/
theorem C5_theorem :
    (∀ kv ∈ GlossToText.gloss_direct_mappings,
      startsCapital kv.2 = true ∧ endsOnePunct kv.2 = true) ∧
    (∀ kv ∈ GlossToText.refineMapping,
      startsCapital kv.2 = true ∧ endsOnePunct kv.2 = true) := by
  decide

/-- C5 witness: the shape facts at a concrete table entry. -/
theorem C5_witness :
    startsCapital "I am thirsty." = true ∧ endsOnePunct "I am thirsty." = true :=
  C5_theorem.1 ("I THIRSTY", "I am thirsty.") (by decide)

/-! ### C6: special verbs in gloss-direction slot extraction -/

/-- C6 counterexample: in `"I NEED FEEL"` the first special-verb
occurrence in token order is `"NEED"`, yet the extractor assigns `"FEEL"`
(first in the fixed lexicon order) as the primary verb and leaves the
secondary-verb slot empty — the claimed first-occurrence/second-occurrence
rule does not hold. -/
theorem C6_counterexample :
    (GlossToText.extract_components GlossToText.time_words GlossToText.wh_words
        "I NEED FEEL" "declarative").verb = some "FEEL" ∧
      (GlossToText.extract_components GlossToText.time_words GlossToText.wh_words
        "I NEED FEEL" "declarative").secondary_verb = none ∧
      pySplitWS "I NEED FEEL" = ["I", "NEED", "FEEL"] := by
  decide

/-- C6 (amended): the special-verb pass consumes exactly one special verb
per call — the first of `FEEL, HAVE, WANT, NEED` in that fixed list order
that occurs anywhere among the tokens; it fills the primary verb slot if
that is empty and the secondary-verb slot otherwise, and removes only the
first occurrence of the chosen token. -/
theorem C6_theorem (c : GlossToText.Components) (tokens : List String) :
    (∀ v, GlossToText.special_verbs.find? (fun u => tokens.contains u) = some v →
      GlossToText.specialVerbStage c tokens =
        ((if c.verb = none then {c with verb := some v} else {c with secondary_verb := some v}),
          tokens.erase v)) ∧
    (GlossToText.special_verbs.find? (fun u => tokens.contains u) = none →
      GlossToText.specialVerbStage c tokens = (c, tokens)) := by
  constructor
  · intro v h
    unfold GlossToText.specialVerbStage
    rw [h]
    by_cases hv : c.verb = none <;> simp [hv]
  · intro h
    unfold GlossToText.specialVerbStage
    rw [h]

/-- C6 witness: the special-verb pass at the counterexample tokens. -/
theorem C6_witness :
    GlossToText.specialVerbStage {} ["I", "NEED", "FEEL"] =
      ({ verb := some "FEEL" }, ["I", "NEED"]) := by
  have h := (C6_theorem {} ["I", "NEED", "FEEL"]).1 "FEEL" (by decide)
  exact h.trans (by decide)

/-! ### C7: the English-direction sentence-type classifier -/

/-- C7 counterexample: an annotated `"what is your name"` without a
trailing question mark contains a lexical wh-word, but the classifier
returns declarative — wh-word detection only runs inside the
trailing-`"?"` branch, so it does not take priority over the question-mark
test. -/
theorem C7_counterexample :
    TextToGloss.classify_sentence TextToGloss.wh_words TextToGloss.docWhatName =
        .ok "declarative" ∧
      TextToGloss.docWhatName.toks.any (fun t =>
        (["WDT", "WP", "WP$", "WRB"] : List String).contains t.tag ||
          TextToGloss.wh_words.contains (pyLower t.text)) = true := by
  decide

/-- C7 (amended): only sentences whose final token is `"?"` are classified
as questions; among those, a wh-word anywhere (by tag or lexicon) yields
wh-question, and otherwise yes-no-question. -/
theorem C7_theorem (ww : List String) (doc : TextToGloss.EDoc) (t : TextToGloss.ETok)
    (hlast : doc.toks.getLast? = some t) (hq : t.text = "?") :
    (doc.toks.any (fun u =>
        (["WDT", "WP", "WP$", "WRB"] : List String).contains u.tag ||
          ww.contains (pyLower u.text)) = true →
      TextToGloss.classify_sentence ww doc = .ok "wh-question") ∧
    (doc.toks.any (fun u =>
        (["WDT", "WP", "WP$", "WRB"] : List String).contains u.tag ||
          ww.contains (pyLower u.text)) = false →
      TextToGloss.classify_sentence ww doc = .ok "yes-no-question") := by
  constructor <;> intro h <;>
    simp only [TextToGloss.classify_sentence, hlast, hq, h] <;> simp

/-- C7 witness: a concrete yes-no question (trailing `"?"`, no wh-word). -/
theorem C7_witness :
    TextToGloss.classify_sentence TextToGloss.wh_words TextToGloss.docAreYouComing =
      .ok "yes-no-question" :=
  (C7_theorem TextToGloss.wh_words TextToGloss.docAreYouComing
    ⟨"?", "?", "PUNCT", ".", "punct", 3, 2⟩ (by decide) rfl).2 (by decide)

/-! ### C8: missing word-list files -/

/-- C8 counterexample: the English→gloss `load_list` has no handler, so a
missing word-list file raises `FileNotFoundError` at startup instead of
degrading to an empty category. -/
theorem C8_counterexample :
    TextToGloss.load_list (fun _ => none) "data/wh_words.txt" =
      .error PyErr.fileNotFound := rfl

/-- C8 (amended): graceful degradation holds only in the gloss→English
direction — its `load_list` returns the empty list when every candidate
path is missing — while the English→gloss `load_list` propagates
`FileNotFoundError` whenever its single path is missing. -/
theorem C8_theorem :
    (∀ (fs : String → Option (List String)) (path : String),
      (∀ p ∈ GlossToText.loadCandidates path, fs p = none) →
      GlossToText.load_list fs path = []) ∧
    (∀ (fs : String → Option (List String)) (path : String),
      fs path = none →
      TextToGloss.load_list fs path = .error PyErr.fileNotFound) := by
  constructor
  · intro fs path h
    have hn : (GlossToText.loadCandidates path).findSome?
        (fun p => (fs p).map (fun lines => lines.map (fun l => pyLower (pyStrip l)))) = none := by
      rw [List.findSome?_eq_none_iff]
      intro p hp
      simp [h p hp]
    simp [GlossToText.load_list, hn]
  · intro fs path h
    simp [TextToGloss.load_list, h]

/-- C8 witness: both loaders on an entirely missing file system. -/
theorem C8_witness :
    GlossToText.load_list (fun _ => none) "data/time_words.txt" = [] ∧
      TextToGloss.load_list (fun _ => none) "data/time_words.txt" =
        .error PyErr.fileNotFound :=
  ⟨C8_theorem.1 (fun _ => none) "data/time_words.txt" (fun _ _ => rfl),
    C8_theorem.2 (fun _ => none) "data/time_words.txt" rfl⟩

/-! ### C9: case/whitespace invariance of `translateToEnglish` -/

/-- Upper-casing a character is idempotent. -/
theorem charUpper_idem (c : Char) : pyUpperChar (pyUpperChar c) = pyUpperChar c := by
  by_cases h : isLowerAZ c = true
  · have hm := GlossToText.lowerAZ_mem c h
    fin_cases hm <;> decide
  · simp [pyUpperChar, h]

/-- Upper-casing preserves whitespace-ness. -/
theorem charUpper_space (c : Char) : pySpace (pyUpperChar c) = pySpace c := by
  by_cases h : isLowerAZ c = true
  · have hm := GlossToText.lowerAZ_mem c h
    fin_cases hm <;> decide
  · simp [pyUpperChar, h]

/-- Stripping commutes with upper-casing. -/
theorem stripChars_map_upper (l : List Char) :
    stripChars (l.map pyUpperChar) = (stripChars l).map pyUpperChar := by
  unfold stripChars
  have hps : (pySpace ∘ pyUpperChar) = pySpace := funext fun c => charUpper_space c
  rw [List.dropWhile_map, hps, List.reverse_map, List.dropWhile_map, hps, List.reverse_map]

/-- A positive head of a `dropWhile` result fails the predicate. -/
theorem dropWhile_head_false (p : α → Bool) (l : List α) (a : α)
    (h : (l.dropWhile p).head? = some a) : p a = false := by
  have hk := List.head?_dropWhile_not p l
  rw [h] at hk
  exact hk

/-- A list whose head fails the predicate is untouched by `dropWhile`. -/
theorem dropWhile_eq_self_of_head (p : α → Bool) (x : List α)
    (h : ∀ a, x.head? = some a → p a = false) : x.dropWhile p = x := by
  cases x with
  | nil => rfl
  | cons c cs =>
    rw [List.dropWhile_cons_of_neg]
    simp [h c rfl]

/-- Stripping is idempotent. -/
theorem stripChars_idem (l : List Char) : stripChars (stripChars l) = stripChars l := by
  unfold stripChars
  cases hr : (l.dropWhile pySpace).reverse.dropWhile pySpace with
  | nil => simp [hr]
  | cons c cs =>
    rw [← hr]
    have h1 : (((l.dropWhile pySpace).reverse.dropWhile pySpace).reverse).dropWhile pySpace =
        ((l.dropWhile pySpace).reverse.dropWhile pySpace).reverse := by
      apply dropWhile_eq_self_of_head
      intro a ha
      rw [List.head?_reverse] at ha
      have hsuf : (l.dropWhile pySpace).reverse.dropWhile pySpace <:+
          (l.dropWhile pySpace).reverse := List.dropWhile_suffix pySpace
      obtain ⟨pre, hp⟩ := hsuf
      have hne : (l.dropWhile pySpace).reverse.dropWhile pySpace ≠ [] := by
        rw [hr]; simp
      have hlast : ((l.dropWhile pySpace).reverse).getLast? = some a := by
        rw [← hp, List.getLast?_append_of_ne_nil _ hne]
        exact ha
      rw [List.getLast?_reverse] at hlast
      exact dropWhile_head_false pySpace l a hlast
    rw [h1, List.reverse_reverse]
    have h2 : ((l.dropWhile pySpace).reverse.dropWhile pySpace).dropWhile pySpace =
        (l.dropWhile pySpace).reverse.dropWhile pySpace := by
      apply dropWhile_eq_self_of_head
      intro a ha
      exact dropWhile_head_false pySpace (l.dropWhile pySpace).reverse a ha
    rw [h2]

/-- The `strip().upper()` normalisation of `gloss_to_english` is
idempotent. -/
theorem norm_idem (g : String) :
    pyUpper (pyStrip (pyUpper (pyStrip g))) = pyUpper (pyStrip g) := by
  have hdata : ∀ x : List Char, (String.mk x).data = x := fun _ => rfl
  simp only [pyUpper, pyStrip, hdata]
  refine congrArg String.mk ?_
  rw [stripChars_map_upper, stripChars_idem, List.map_map,
    show pyUpperChar ∘ pyUpperChar = pyUpperChar from funext fun c => charUpper_idem c]

/-- C9: `gloss_to_english` is invariant under letter case and surrounding
whitespace — applying it to the `strip().upper()` normal form of the input
gives the same result, because that normalisation is the first statement of
the function and is idempotent. -/
theorem C9_theorem (o : GlossToText.Oracles) (g : String) :
    GlossToText.gloss_to_english o g =
      GlossToText.gloss_to_english o (pyUpper (pyStrip g)) := by
  rw [gloss_catch_eq, gloss_catch_eq]
  simp only [norm_idem]

/-! ### C10: the question-marker token removal -/

/-- C10 counterexample to the unrestricted claim: the gloss
`"YOU CO.ME?"` is classified yes-no-question and ends with `"?"`, its final
whitespace-delimited token is `"CO.ME?"`, yet the fragment `"CO"` of that
token is assigned to the verb slot: the period split (`sentences = gloss.split(".")`,
`gloss = sentences[0]`) runs before the question-marker removal, the truncated
gloss `"YOU CO"` no longer ends with `"?"`, so `tokens[:-1]` is skipped and
the fragment survives into slot filling. -/
theorem C10_counterexample :
    GlossToText.detect_sentence_type GlossToText.wh_words "YOU CO.ME?" =
        "yes-no-question" ∧
    pyEndsWith "YOU CO.ME?" "?" = true ∧
    (pySplitWS "YOU CO.ME?").getLast? = some "CO.ME?" ∧
    pyIn "CO" "CO.ME?" = true ∧
    (GlossToText.extract_components GlossToText.time_words GlossToText.wh_words
        "YOU CO.ME?" "yes-no-question").verb = some "CO" := by
  refine ⟨by decide, by decide, by decide, by decide, by decide⟩

/-- C10 (amended): for a question-classified gloss ending in `"?"` that
contains no period (a single sentence), the whole final whitespace-delimited
token is dropped before slot filling; concretely, for `"YOU COME?"` the token
`"COME?"` reaches no slot — the frame only carries the subject/proper-name
`"YOU"`. -/
theorem C10_theorem :
    (∀ (tw ww : List String) (gloss ty : String),
      (ty = "yes-no-question" ∨ ty = "wh-question") →
      pyEndsWith gloss "?" = true →
      pyIn "." gloss = false →
      GlossToText.extract_components tw ww gloss ty =
        GlossToText.extractCore tw ww ((pySplitWS gloss).dropLast) gloss ty) ∧
    GlossToText.extract_components GlossToText.time_words GlossToText.wh_words
        "YOU COME?" "yes-no-question" =
      ({ subject := some "YOU", proper_name := some "YOU" } : GlossToText.Components) := by
  constructor
  · intro tw ww gloss ty hty hq hdot
    rcases hty with h | h <;> subst h <;>
      simp [GlossToText.extract_components, hdot, hq]
  · decide

/-- C10 witness: the general token-drop fact at the concrete gloss. -/
theorem C10_witness :
    GlossToText.extract_components ([] : List String) ([] : List String)
        "YOU COME?" "yes-no-question" =
      GlossToText.extractCore [] [] ((pySplitWS "YOU COME?").dropLast)
        "YOU COME?" "yes-no-question" :=
  C10_theorem.1 [] [] "YOU COME?" "yes-no-question" (Or.inl rfl) (by decide) (by decide)

end ISL
